import Mathlib

/-!
Shallow embedding of the pharmaspec-validator backend (FastAPI + SQLAlchemy +
Celery) and proofs about its access-control gate, audit trail, matrix
generation pipeline, extraction state machine, retention purge and audit
queries.  Every definition is translated from the Python sources under
`backend/app/`; timestamps are abstract `Nat` ticks, database rows are Lean
structures, JSON dicts are association lists over a small JSON value type.
-/

namespace PharmaSpec

/-- A JSON value, modelling the Python dicts passed around by the AI service
and stored in JSON columns. Objects are key-ordered association lists, as
Python dicts preserve insertion order. -/
inductive JVal where
  | s : String → JVal
  | n : Int → JVal
  | b : Bool → JVal
  | null : JVal
  | arr : List JVal → JVal
  | obj : List (String × JVal) → JVal
deriving Repr

/-- A JSON object (Python dict): insertion-ordered key/value pairs. -/
abbrev Obj := List (String × JVal)

/-- `d.get(k)` on a Python dict: the value at the first matching key. -/
def lookupKey (o : Obj) (k : String) : Option JVal :=
  (o.find? (fun kv => kv.1 == k)).map (·.2)

/-- `d.get(k)` restricted to string values (non-string values give `none`). -/
def getStr (o : Obj) (k : String) : Option String :=
  match lookupKey o k with
  | some (.s v) => some v
  | _ => none

/-- `d.get(k, default)` for string-valued fields. -/
def getStrD (o : Obj) (k d : String) : String := (getStr o k).getD d

/-- `d.get(k)` restricted to object values. -/
def getObj (o : Obj) (k : String) : Option Obj :=
  match lookupKey o k with
  | some (.obj v) => some v
  | _ => none

/-- `d.get(k, default)` with a raw JSON default. -/
def getD (o : Obj) (k : String) (d : JVal) : JVal := (lookupKey o k).getD d

/-- `d[k] = v` on a Python dict: replace in place if the key exists,
otherwise append at the end (dicts preserve insertion order). -/
def setKey (o : Obj) (k : String) (v : JVal) : Obj :=
  if o.any (fun kv => kv.1 == k) then
    o.map (fun kv => if kv.1 == k then (k, v) else kv)
  else
    o ++ [(k, v)]

/-- Python truthiness of a JSON value (`bool(v)`). -/
def truthy : JVal → Bool
  | .s v => !(v == "")
  | .n v => !(v == 0)
  | .b v => v
  | .null => false
  | .arr xs => !xs.isEmpty
  | .obj fs => !fs.isEmpty

/-- Python truthiness of an optional JSON column value (`None` is falsy). -/
def optTruthy : Option JVal → Bool
  | none => false
  | some v => truthy v

/-- The top-level keys of a dict, in order. -/
def topKeys (o : Obj) : List String := o.map (·.1)

/-- The two-level key shape of a dict: each top-level key together with the
keys of its value when that value is itself a dict (all dicts produced by the
matrix-generation code nest at most one level deep). -/
def objShape (o : Obj) : List (String × List String) :=
  o.map (fun kv => (kv.1, match kv.2 with | .obj fs => fs.map (·.1) | _ => []))

/-! ## Data model (`app/models/`) -/

/-- `UserRole` from `app/models/user.py`. -/
inductive UserRole where
  | engineer
  | admin
deriving DecidableEq, Repr

/-- A `users` row (the fields the embedded endpoints consult). -/
structure User where
  id : Nat
  role : UserRole
deriving DecidableEq, Repr

/-- A `projects` row (`app/models/project.py`). -/
structure Project where
  id : Nat
  name : String
  owner_id : Nat
  status : String
  password_hash : Option String
  deleted_at : Option Nat
deriving DecidableEq, Repr

/-- A `project_access` row (`app/models/project_access.py`): a capability
cache entry recording a successful password verification. -/
structure ProjectAccess where
  user_id : Nat
  project_id : Nat
  verified_at : Nat
deriving DecidableEq, Repr

/-- A `documents` row (`app/models/document.py`). -/
structure Document where
  id : Nat
  project_id : Nat
  original_filename : String
  extraction_status : String
  extracted_json : Option JVal
  extraction_model : Option String
  extraction_error : Option String
  extracted_at : Option Nat
  deleted_at : Option Nat
deriving Repr

/-- A `requirements` row (`app/models/requirement.py`). `requirement_id` is
the user-facing identifier (e.g. "REQ-001"), `id` the primary key. -/
structure Requirement where
  id : Nat
  requirement_id : String
  description : String
  category : Option String
  priority : String
  status : String
  project_id : Nat
  deleted_at : Option Nat
deriving DecidableEq, Repr

/-- A `matrix_entries` row (model imported as `app.models.matrix.MatrixEntry`;
fields as used by `analyze_document` and `matrix_generator.py`).
`document_id` is optional: `matrix_generator.py` creates entries without it. -/
structure MatrixEntry where
  id : Nat
  requirement_id : Nat
  document_id : Option Nat
  spec_reference : Option String
  supplier_response : Option String
  justification : Option String
  compliance_status : Option String
  test_reference : Option String
  risk_assessment : Option String
  comments : Option String
  generation_model : Option String
  generation_metadata : Option Obj
  review_status : String
  created_by : Option Nat
  last_modified_by : Option Nat
  deleted_at : Option Nat
deriving Repr

/-- An `audit_logs` row (`app/models/audit_log.py`), restricted to the fields
the embedded code writes and queries. `user_id` is optional in the row value;
whether the column accepts NULL is a separate schema fact
(`audit_user_id_column_nullable`). -/
structure AuditRow where
  id : Nat
  user_id : Option Nat
  action : String
  entity_type : Option String
  entity_id : Option Nat
  details : Option Obj
  timestamp : Nat
deriving Repr

/-- `audit_logs.user_id` is declared `Column(Integer, ForeignKey("users.id"),
nullable=False, index=True)` in `app/models/audit_log.py`: the column does NOT
accept NULL. -/
def audit_user_id_column_nullable : Bool := false

/-- The visible (committed) database state, plus the next primary-key values
and the current clock used for `func.now()`. -/
structure AppState where
  projects : List Project
  project_access : List ProjectAccess
  documents : List Document
  requirements : List Requirement
  matrix_entries : List MatrixEntry
  audit_logs : List AuditRow
  next_project_id : Nat
  next_entry_id : Nat
  next_audit_id : Nat
  now : Nat
deriving Repr

/-- `scalar_one_or_none()` on a query result: `none` for no row, the row if
unique, and a `MultipleResultsFound` error otherwise. -/
def scalarOneOrNone (l : List α) : Except String (Option α) :=
  match l with
  | [] => .ok none
  | [a] => .ok (some a)
  | _ => .error "MultipleResultsFound"

/-- Append an audit row (`db.add(AuditLog(...))` followed by a successful
flush/commit). -/
def addAudit (st : AppState) (user_id : Option Nat) (action : String)
    (entity_type : Option String) (entity_id : Option Nat)
    (details : Option Obj) : AppState :=
  { st with
    audit_logs := st.audit_logs ++
      [{ id := st.next_audit_id, user_id := user_id, action := action,
         entity_type := entity_type, entity_id := entity_id,
         details := details, timestamp := st.now }],
    next_audit_id := st.next_audit_id + 1 }

/-! ## Access Control Gate (`app/api/deps.py`) -/

/-- The outcome of a dependency-style access check: it either returns `True`,
raises an `HTTPException(status, detail)`, or crashes with an uncaught Python
runtime error (surfaced as HTTP 500). -/
inductive AccessDecision where
  | allowed
  | httpError (status : Nat) (detail : String)
  | pythonError (message : String)
deriving DecidableEq, Repr

/-- The project lookup shared by `verify_project_access` and
`verify_project_write_access`: `select(Project).where(Project.id ==
project_id, Project.deleted_at.is_(None))` followed by
`scalar_one_or_none()`. -/
def lookupProject (st : AppState) (project_id : Nat) :
    Except String (Option Project) :=
  scalarOneOrNone (st.projects.filter
    (fun p => p.id == project_id && p.deleted_at.isNone))

/-- `verify_project_access` (`deps.py` lines 107-169).  Resolution order:
404 if the project is absent or soft-deleted; admins allowed; owner allowed;
no password protection (`not project.password_hash`, so a NULL or empty hash)
allowed.  After that the source evaluates `and_(...)` to build the
`ProjectAccess` query, but `deps.py` imports only `select` from sqlalchemy —
`and_` is NOT imported — so this path raises
`NameError: name 'and_' is not defined` before the `ProjectAccess` table or
the `password_required` branch is ever consulted. -/
def verify_project_access (st : AppState) (project_id : Nat) (u : User) :
    AccessDecision :=
  match lookupProject st project_id with
  | .error e => .pythonError e
  | .ok none => .httpError 404 "Project not found"
  | .ok (some project) =>
    if u.role == UserRole.admin then .allowed
    else if project.owner_id == u.id then .allowed
    else if !(match project.password_hash with
              | none => false
              | some h => !(h == "")) then .allowed
    else .pythonError "name 'and_' is not defined"

/-- `verify_project_write_access` (`deps.py` lines 172-208): 404 if the
project is absent or soft-deleted; admins denied with 403 (read-only
oversight); every other principal allowed. -/
def verify_project_write_access (st : AppState) (project_id : Nat) (u : User) :
    AccessDecision :=
  match lookupProject st project_id with
  | .error e => .pythonError e
  | .ok none => .httpError 404 "Project not found"
  | .ok (some _) =>
    if u.role == UserRole.admin then
      .httpError 403 "Admins have read-only access. Only engineers can modify projects."
    else .allowed

/-! ## AI Provider (`app/services/ai_service.py`) -/

/-- Configuration fields of `app/core/config.py` consulted by the AI
service. `gemini_configured` models `settings.GEMINI_API_KEY` being set
(so `self.gemini_matrix_model` is not `None`). -/
structure AIConfig where
  matrix_generation_provider : String := "gemini"
  gemini_configured : Bool := true
  ollama_model : String := "llama3.2:3b"
  gemini_model_matrix : String := "gemini-2.5-pro"
deriving DecidableEq, Repr

/-- The result of `json.loads(response_text)`: a parsed dict, or a
`json.JSONDecodeError` with message `msg`. -/
inductive ParseResult where
  | ok (entry : Obj)
  | jsonError (msg : String)
deriving Repr

/-- The observable behaviour of one provider call: either some exception is
raised inside the `try` block (network error, timeout, ...) with `str(e) =
msg`, or the provider returns `response_text = text` whose JSON parse is
`parsed`. -/
inductive CallOutcome where
  | exn (msg : String)
  | resp (text : String) (parsed : ParseResult)
deriving Repr

/-- The dict returned by both `except Exception` handlers
(`ai_service.py` lines 473-481 and 592-600): the two literals are
identical character for character. -/
def aiErrorEntry (e : String) : Obj :=
  [("spec_reference", .s "AI generation failed"),
   ("supplier_response", .s "Error during AI processing"),
   ("justification", .s ("AI service error: " ++ e)),
   ("compliance_status", .s "Requires Clarification"),
   ("confidence_score", .n 0),
   ("comments", .s "Manual review required due to AI processing error"),
   ("generation_error", .s e)]

/-- The dict assigned in both `except json.JSONDecodeError` handlers
(`ai_service.py` lines 449-456 and 568-575): again the two literals are
identical. -/
def aiParseFallbackEntry (response_text e : String) : Obj :=
  [("spec_reference", .s "AI generation failed - JSON parsing error"),
   ("supplier_response",
     .s (if response_text == "" then "No response from AI"
         else response_text.take 1000)),
   ("justification", .s "AI-generated response could not be parsed"),
   ("compliance_status", .s "Requires Clarification"),
   ("confidence_score", .n 0),
   ("comments", .s ("JSON parsing error: " ++ e))]

/-- The `generation_metadata` dict added by `_generate_matrix_with_ollama`
(`ai_service.py` lines 459-465). -/
def ollamaMetadata (cfg : AIConfig) (requirement category : String) : Obj :=
  [("model", .s cfg.ollama_model),
   ("requirement", .s requirement),
   ("requirement_category", .s category),
   ("generation_timestamp", .s "auto-generated"),
   ("prompt_version", .s "v1.0")]

/-- The `generation_metadata` dict added by `_generate_matrix_with_gemini`
(`ai_service.py` lines 578-585): note the extra `"provider"` key absent from
the Ollama metadata. -/
def geminiMetadata (cfg : AIConfig) (requirement category : String) : Obj :=
  [("model", .s cfg.gemini_model_matrix),
   ("provider", .s "gemini"),
   ("requirement", .s requirement),
   ("requirement_category", .s category),
   ("generation_timestamp", .s "auto-generated"),
   ("prompt_version", .s "v1.0")]

/-- The empty-field validation on a successfully parsed Ollama entry
(`ai_service.py` lines 431-444): when `spec_reference` or
`supplier_response` is missing or falsy, a warning is written into
`comments` (appending with `+=` when `comments` is already a truthy
string; a truthy non-string `comments` would make `+=` raise `TypeError`,
which the surrounding `except Exception` absorbs into `aiErrorEntry`). -/
def ollamaValidateEntry (entry : Obj) : Except String Obj :=
  let spec_ref := getD entry "spec_reference" (.s "")
  let supplier_resp := getD entry "supplier_response" (.s "")
  if !(truthy spec_ref) || !(truthy supplier_resp) then
    match lookupKey entry "comments" with
    | none =>
      .ok (setKey entry "comments"
        (.s "Warning: AI returned empty fields - requires manual completion"))
    | some c =>
      if !(truthy c) then
        .ok (setKey entry "comments"
          (.s "Warning: AI returned empty fields - requires manual completion"))
      else
        match c with
        | .s cs =>
          .ok (setKey entry "comments"
            (.s (cs ++ " | Warning: Some fields were empty in AI response")))
        | _ => .error "TypeError: can only concatenate str"
  else .ok entry

/-- The empty-field validation on a successfully parsed Gemini entry
(`ai_service.py` lines 557-564): unlike the Ollama variant it only fills a
missing/falsy `comments`, it never appends to an existing one. -/
def geminiValidateEntry (entry : Obj) : Obj :=
  let spec_ref := getD entry "spec_reference" (.s "")
  let supplier_resp := getD entry "supplier_response" (.s "")
  if !(truthy spec_ref) || !(truthy supplier_resp) then
    match lookupKey entry "comments" with
    | none =>
      setKey entry "comments"
        (.s "Warning: AI returned empty fields - requires manual completion")
    | some c =>
      if !(truthy c) then
        setKey entry "comments"
          (.s "Warning: AI returned empty fields - requires manual completion")
      else entry
  else entry

/-- `_generate_matrix_with_ollama` (`ai_service.py` lines 345-481).  The
whole body sits inside `try: ... except Exception`, so the function always
returns a dict, whatever the provider call does.  The specification bundle
and project context only enter the prompt string, which is abstracted into
`outcome`. -/
def generate_matrix_with_ollama (cfg : AIConfig)
    (requirement category : String) (_extracted_specs : Obj)
    (_project_context : Option Obj) (outcome : CallOutcome) : Obj :=
  match outcome with
  | .exn e => aiErrorEntry e
  | .resp text parsed =>
    let matrix_entry : Except String Obj :=
      match parsed with
      | .jsonError e => .ok (aiParseFallbackEntry text e)
      | .ok entry => ollamaValidateEntry entry
    match matrix_entry with
    | .error e => aiErrorEntry e
    | .ok entry =>
      setKey entry "generation_metadata"
        (.obj (ollamaMetadata cfg requirement category))

/-- `_generate_matrix_with_gemini` (`ai_service.py` lines 484-600).  If the
Gemini model is not configured a `ValueError` is raised BEFORE the `try`
block and propagates (`.error`); otherwise every provider-side failure is
converted into a returned dict exactly as in the Ollama variant, but with
`geminiMetadata` attached. -/
def generate_matrix_with_gemini (cfg : AIConfig)
    (requirement category : String) (_extracted_specs : Obj)
    (_project_context : Option Obj) (outcome : CallOutcome) :
    Except String Obj :=
  if !cfg.gemini_configured then .error "Gemini API not configured"
  else
    match outcome with
    | .exn e => .ok (aiErrorEntry e)
    | .resp text parsed =>
      let entry : Obj :=
        match parsed with
        | .jsonError e => aiParseFallbackEntry text e
        | .ok entry => geminiValidateEntry entry
      .ok (setKey entry "generation_metadata"
        (.obj (geminiMetadata cfg requirement category)))

/-- `AIService.generate_matrix_entry` (`ai_service.py` lines 313-342):
dispatch on `settings.MATRIX_GENERATION_PROVIDER` ("gemini" vs anything
else, which selects Ollama). -/
def generate_matrix_entry (cfg : AIConfig) (requirement category : String)
    (extracted_specs : Obj) (project_context : Option Obj)
    (outcome : CallOutcome) : Except String Obj :=
  if cfg.matrix_generation_provider == "gemini" then
    generate_matrix_with_gemini cfg requirement category extracted_specs
      project_context outcome
  else
    .ok (generate_matrix_with_ollama cfg requirement category extracted_specs
      project_context outcome)

/-! ## Generation endpoint `analyze_document` (`app/api/v1/projects.py` lines 767-954) -/

/-- `AnalyzeDocumentRequest` (`app/schemas/matrix.py`). -/
structure AnalyzeDocumentRequest where
  document_id : Nat
  requirement_ids : List Nat
  force_regenerate : Bool := false
deriving Repr

/-- The response of `analyze_document`: the message, the ids of the entries
returned in `entries`, and the `skipped` count. -/
structure AnalyzeResult where
  message : String
  entry_ids : List Nat
  skipped : Nat
deriving DecidableEq, Repr

/-- The document fetch of `analyze_document` (lines 791-799):
`Document.id == document_id, Document.project_id == project_id,
Document.deleted_at.is_(None)`. -/
def documentQuery (st : AppState) (document_id project_id : Nat) :
    List Document :=
  st.documents.filter (fun d =>
    d.id == document_id && d.project_id == project_id && d.deleted_at.isNone)

/-- The requirement fetch of `analyze_document` (lines 814-822):
`Requirement.id.in_(requirement_ids), Requirement.project_id == project_id,
Requirement.deleted_at.is_(None)`. -/
def requirementsQuery (st : AppState) (ids : List Nat) (project_id : Nat) :
    List Requirement :=
  st.requirements.filter (fun r =>
    ids.contains r.id && r.project_id == project_id && r.deleted_at.isNone)

/-- The filter behind the idempotency check (lines 839-847): non-deleted
matrix entries for one (requirement, document) pair. -/
def pairPred (rid did : Nat) (e : MatrixEntry) : Bool :=
  e.requirement_id == rid && e.document_id == some did && e.deleted_at.isNone

/-- `pairPred` applied to a list of rows. -/
def pairFilter (l : List MatrixEntry) (rid did : Nat) : List MatrixEntry :=
  l.filter (pairPred rid did)

/-- Non-deleted matrix entries for a (requirement, document) pair in the
store. -/
def pairQuery (st : AppState) (rid did : Nat) : List MatrixEntry :=
  pairFilter st.matrix_entries rid did

/-- Soft delete of one matrix entry: `existing_entry.deleted_at = func.now()`
(line 853) followed by `db.flush()`. -/
def softDeleteEntry (st : AppState) (entry_id : Nat) : AppState :=
  { st with matrix_entries := st.matrix_entries.map (fun e =>
      if e.id == entry_id then { e with deleted_at := some st.now } else e) }

/-- `requirement.category or "General"` — `None` and the empty string are
falsy. -/
def categoryOrGeneral : Option String → String
  | none => "General"
  | some c => if c == "" then "General" else c

/-- The `formatted_specs` bundle built by `analyze_document` (lines 877-894)
from the document's extracted JSON (treated as a dict; `.get` defaults apply
when keys are missing). -/
def formattedSpecs (document : Document) : Obj :=
  let ej : Obj := match document.extracted_json with
    | some (.obj o) => o
    | _ => []
  [("documents", .arr [.obj [
      ("filename", .s document.original_filename),
      ("document_info", getD ej "document_info" (.obj [])),
      ("sections", getD ej "sections" (.arr [])),
      ("extraction_metadata", getD ej "extraction_metadata" (.obj []))]]),
   ("document_sources", .arr [.obj [
      ("document_id", .n document.id),
      ("filename", .s document.original_filename),
      ("extraction_model", match document.extraction_model with
        | some m => .s m
        | none => .null)]])]

/-- The `MatrixEntry(...)` constructed by `analyze_document` (lines
903-918) from the AI result dict. -/
def newMatrixEntry (cfg : AIConfig) (u : User) (document : Document)
    (r : Requirement) (matrix_data : Obj) (entry_id : Nat) : MatrixEntry :=
  { id := entry_id,
    requirement_id := r.id,
    document_id := some document.id,
    spec_reference := getStr matrix_data "spec_reference",
    supplier_response := getStr matrix_data "supplier_response",
    justification := getStr matrix_data "justification",
    compliance_status :=
      some (getStrD matrix_data "compliance_status" "Requires Clarification"),
    test_reference := getStr matrix_data "test_reference",
    risk_assessment := getStr matrix_data "risk_assessment",
    comments := getStr matrix_data "comments",
    generation_model := some (getStrD
      ((getObj matrix_data "generation_metadata").getD [])
      "model" cfg.ollama_model),
    generation_metadata := getObj matrix_data "generation_metadata",
    review_status := "pending",
    created_by := some u.id,
    last_modified_by := none,
    deleted_at := none }

/-- Persist the new entry (`db.add`; `db.flush` assigns the id) and write
the MATRIX_ENTRY_GENERATED audit event (lines 920-939). -/
def addEntryWithAudit (cfg : AIConfig) (u : User) (document : Document)
    (r : Requirement) (matrix_data : Obj) (st : AppState) : AppState :=
  let entry := newMatrixEntry cfg u document r matrix_data st.next_entry_id
  let st1 := { st with
    matrix_entries := st.matrix_entries ++ [entry],
    next_entry_id := st.next_entry_id + 1 }
  addAudit st1 (some u.id) "MATRIX_ENTRY_GENERATED"
    (some "matrix_entry") (some entry.id)
    (some [("requirement_id", .s r.requirement_id),
           ("document_id", .n document.id),
           ("compliance_status",
             .s (getStrD matrix_data "compliance_status"
               "Requires Clarification"))])

/-- One iteration of the `for requirement in requirements:` loop in
`analyze_document` (lines 836-944).  The whole body is wrapped in
`try: ... except Exception: continue`, so failures leave the accumulated
state as is.  Audit writes inside the loop run `log_audit_event`, which
commits, so the soft delete of the force path is durable even if the
subsequent generation fails. -/
def analyzeStep (cfg : AIConfig) (u : User) (document : Document)
    (force_regenerate : Bool) (outcomes : Nat → CallOutcome)
    (acc : AppState × List Nat) (r : Requirement) : AppState × List Nat :=
  let (st, created) := acc
  match scalarOneOrNone (pairQuery st r.id document.id) with
  | .error _ => (st, created)
  | .ok existing =>
    let afterExisting : Option (AppState) :=
      match existing with
      | some existing_entry =>
        if force_regenerate then
          let st1 := softDeleteEntry st existing_entry.id
          some (addAudit st1 (some u.id) "MATRIX_ENTRY_DELETED"
            (some "matrix_entry") (some existing_entry.id)
            (some [("reason", .s "force_regenerate"),
                   ("requirement_id", .s r.requirement_id),
                   ("document_id", .n document.id)]))
        else none
      | none => some st
    match afterExisting with
    | none => (st, created)
    | some st =>
      match generate_matrix_entry cfg r.description
          (categoryOrGeneral r.category) (formattedSpecs document) none
          (outcomes r.id) with
      | .error _ => (st, created)
      | .ok matrix_data =>
        let st2 := addEntryWithAudit cfg u document r matrix_data st
        (st2, created ++ [st.next_entry_id])

/-- `analyze_document` (lines 767-954), entered after
`verify_project_write_access` succeeded.  `outcomes` gives the provider-call
behaviour for each requirement's generation. -/
def analyze_document (cfg : AIConfig) (st : AppState) (project_id : Nat)
    (u : User) (req : AnalyzeDocumentRequest) (outcomes : Nat → CallOutcome) :
    AppState × Except (Nat × String) AnalyzeResult :=
  match scalarOneOrNone (documentQuery st req.document_id project_id) with
  | .error e => (st, .error (500, e))
  | .ok none => (st, .error (404, "Document not found"))
  | .ok (some document) =>
    if !(document.extraction_status == "completed")
        || !(optTruthy document.extracted_json) then
      (st, .error (400, "Document has not been processed yet or extraction failed"))
    else
      let requirements := requirementsQuery st req.requirement_ids project_id
      if !(requirements.length == req.requirement_ids.length) then
        (st, .error (400, "One or more requirements not found"))
      else
        let out := requirements.foldl
          (analyzeStep cfg u document req.force_regenerate outcomes) (st, [])
        (out.1, .ok
          { message := "Generated " ++ toString out.2.length ++ " matrix entries",
            entry_ids := out.2,
            skipped := requirements.length - out.2.length })

/-! ## Batch generation (`app/services/matrix_generator.py`) -/

/-- The per-requirement result dict produced by
`_generate_single_matrix_entry` / `_process_requirements_batch`. -/
structure GenResult where
  success : Bool
  requirement_id : Nat
  matrix_entry_id : Option Nat := none
  existing_entry_id : Option Nat := none
  error : Option String := none
  confidence_score : Option JVal := none
deriving Repr

/-- A failed per-requirement result (`{"success": False, "requirement_id":
..., "error": str(e)}`). -/
def genFailure (rid : Nat) (e : String) : GenResult :=
  { success := false, requirement_id := rid, error := some e }

/-- The existing-entry check of `_generate_single_matrix_entry` (lines
314-320): non-deleted entries for the requirement — note there is NO
document filter here, unlike `analyze_document`. -/
def requirementEntryFilter (l : List MatrixEntry) (rid : Nat) :
    List MatrixEntry :=
  l.filter (fun e => e.requirement_id == rid && e.deleted_at.isNone)

/-- The `project_context` dict passed to the AI service by
`matrix_generator.py` (lines 335-339). -/
def projectContext (r : Requirement) : Obj :=
  [("project_id", .n r.project_id),
   ("requirement_id", .s r.requirement_id),
   ("priority", .s r.priority)]

/-- `_generate_single_matrix_entry` (`matrix_generator.py` lines 304-374).
Wrapped in `try: ... except Exception: rollback; return failure dict`.
`generation_model=generated_entry["generation_metadata"]["model"]` raises a
`KeyError` when the metadata (or its model) is absent — the degraded record
returned on a provider exception carries `generation_error` instead of
`generation_metadata`, so that path ends in the except handler. -/
def generate_single_matrix_entry (cfg : AIConfig) (st : AppState)
    (user_id : Nat) (combined_specs : Obj) (outcome : CallOutcome)
    (r : Requirement) : AppState × GenResult :=
  match scalarOneOrNone (requirementEntryFilter st.matrix_entries r.id) with
  | .error e => (st, genFailure r.id e)
  | .ok (some existing_entry) =>
    (st, { success := false, requirement_id := r.id,
           existing_entry_id := some existing_entry.id,
           error := some "Matrix entry already exists" })
  | .ok none =>
    match generate_matrix_entry cfg r.description (categoryOrGeneral r.category)
        combined_specs (some (projectContext r)) outcome with
    | .error e => (st, genFailure r.id e)
    | .ok generated_entry =>
      match (getObj generated_entry "generation_metadata").bind
          (fun m => getStr m "model") with
      | none => (st, genFailure r.id "KeyError: 'generation_metadata'")
      | some model_name =>
        let entry : MatrixEntry :=
          { id := st.next_entry_id,
            requirement_id := r.id,
            document_id := none,
            spec_reference := getStr generated_entry "spec_reference",
            supplier_response := getStr generated_entry "supplier_response",
            justification := getStr generated_entry "justification",
            compliance_status := getStr generated_entry "compliance_status",
            test_reference := getStr generated_entry "test_reference",
            risk_assessment := getStr generated_entry "risk_assessment",
            comments := getStr generated_entry "comments",
            generation_model := some model_name,
            generation_metadata := getObj generated_entry "generation_metadata",
            review_status := "pending",
            created_by := some user_id,
            last_modified_by := none,
            deleted_at := none }
        ({ st with matrix_entries := st.matrix_entries ++ [entry],
                   next_entry_id := st.next_entry_id + 1 },
         { success := true, requirement_id := r.id,
           matrix_entry_id := some entry.id,
           confidence_score := some (getD generated_entry "confidence_score" (.n 0)) })

/-- `_process_requirements_batch` (lines 271-302): each batch member runs
its own `_generate_single_matrix_entry` whose failures are absorbed into
result dicts (`asyncio.gather(..., return_exceptions=True)` over a shared
session, modelled sequentially), so no element ever aborts the batch. -/
def process_requirements_batch (cfg : AIConfig) (user_id : Nat)
    (combined_specs : Obj) (outcomes : Nat → CallOutcome) (st : AppState) :
    List Requirement → AppState × List GenResult
  | [] => (st, [])
  | r :: rest =>
    let out := generate_single_matrix_entry cfg st user_id combined_specs
      (outcomes r.id) r
    let next := process_requirements_batch cfg user_id combined_specs outcomes
      out.1 rest
    (next.1, out.2 :: next.2)

/-- `_combine_document_specifications` (lines 376-424): documents with falsy
`extracted_json` are skipped; the rest contribute one `documents` element and
one `document_sources` element each. -/
def combine_document_specifications (documents : List Document) : Obj :=
  let entries := documents.filterMap (fun doc =>
    if !(optTruthy doc.extracted_json) then none
    else
      let ej : Obj := match doc.extracted_json with
        | some (.obj o) => o
        | _ => []
      some ((JVal.obj
        [("filename", .s doc.original_filename),
         ("document_info", getD ej "document_info" (.obj [])),
         ("sections", getD ej "sections" (.arr [])),
         ("extraction_metadata", getD ej "extraction_metadata" (.obj []))],
        JVal.obj
        [("document_id", .n doc.id),
         ("filename", .s doc.original_filename),
         ("extraction_model", match doc.extraction_model with
           | some m => .s m
           | none => .null),
         ("extracted_at", match doc.extracted_at with
           | some t => .s (toString t)
           | none => .null)])))
  [("documents", .arr (entries.map (·.1))),
   ("document_sources", .arr (entries.map (·.2)))]

/-- Insert into a `le`-sorted list (used to model SQL `ORDER BY`). -/
def insertSorted (le : α → α → Bool) (a : α) : List α → List α
  | [] => [a]
  | b :: l => if le a b then a :: b :: l else b :: insertSorted le a l

/-- Sort a list by `le` (insertion sort; stable). -/
def sortBy (le : α → α → Bool) : List α → List α
  | [] => []
  | a :: l => insertSorted le a (sortBy le l)

/-- The requirement query of `generate_matrix_for_project` (lines 48-53):
project's non-deleted requirements, `ORDER BY Requirement.id`. -/
def projectRequirementsQuery (st : AppState) (project_id : Nat) :
    List Requirement :=
  sortBy (fun a b => Nat.ble a.id b.id)
    (st.requirements.filter (fun r =>
      r.project_id == project_id && r.deleted_at.isNone))

/-- The document query of `generate_matrix_for_project` (lines 63-69):
non-deleted documents of the project with completed extraction. -/
def completedDocumentsQuery (st : AppState) (project_id : Nat) :
    List Document :=
  st.documents.filter (fun d =>
    d.project_id == project_id && d.extraction_status == "completed"
      && d.deleted_at.isNone)

/-- The batching loop of `generate_matrix_for_project` (lines 87-102):
`for i in range(0, total, batch_size)` with `await asyncio.sleep(1)` between
successive batches (`if i + batch_size < total`).  Returns the final state,
the concatenated per-requirement results, and the number of sleeps. -/
def processBatches (cfg : AIConfig) (user_id : Nat) (combined_specs : Obj)
    (outcomes : Nat → CallOutcome) (st : AppState) (rs : List Requirement)
    (b : Nat) : AppState × List GenResult × Nat :=
  if h : b = 0 ∨ rs = [] then (st, [], 0)
  else
    let step := process_requirements_batch cfg user_id combined_specs outcomes
      st (rs.take b)
    if h2 : rs.length ≤ b then (step.1, step.2, 0)
    else
      let rest := processBatches cfg user_id combined_specs outcomes step.1
        (rs.drop b) b
      (rest.1, step.2 ++ rest.2.1, rest.2.2 + 1)
termination_by rs.length
decreasing_by
  simp only [List.length_drop]
  push_neg at h
  omega

/-- The summary dict returned by `generate_matrix_for_project`.  The error
returns of the source carry only `success`/`error`/`generated_count`; the
remaining fields are zero there.  Note there is no skipped count anywhere in
this structure. -/
structure BatchSummary where
  success : Bool
  error : Option String := none
  total_requirements : Nat := 0
  generated_count : Nat := 0
  failed_count : Nat := 0
  results : List GenResult := []
deriving Repr

/-- `generate_matrix_for_project` (`matrix_generator.py` lines 25-123).
The third component counts the `asyncio.sleep(1)` pauses between batches.
`batch_size = 0` would make `range(0, total, 0)` raise a `ValueError`
caught by the surrounding `except`, hence the error summary. -/
def generate_matrix_for_project (cfg : AIConfig) (st : AppState)
    (project_id user_id : Nat) (batch_size : Nat)
    (outcomes : Nat → CallOutcome) : AppState × BatchSummary × Nat :=
  let requirements := projectRequirementsQuery st project_id
  if requirements.isEmpty then
    (st, { success := false, error := some "No requirements found for project" }, 0)
  else
    let documents := completedDocumentsQuery st project_id
    if documents.isEmpty then
      (st, { success := false,
             error := some "No extracted documents found for project" }, 0)
    else if batch_size == 0 then
      (st, { success := false,
             error := some "range() arg 3 must not be zero" }, 0)
    else
      let combined_specs := combine_document_specifications documents
      let out := processBatches cfg user_id combined_specs outcomes st
        requirements batch_size
      (out.1,
       { success := true,
         total_requirements := requirements.length,
         generated_count := (out.2.1.filter (·.success)).length,
         failed_count := (out.2.1.filter (fun g => !g.success)).length,
         results := out.2.1 },
       out.2.2)

/-! ## Background tasks (`app/tasks.py`) -/

/-- The behaviour of one extraction attempt (file read plus
`extract_document_specifications`): a structured payload, or some exception
with `str(e) = msg`. -/
inductive ExtractionOutcome where
  | ok (payload : JVal)
  | exn (msg : String)
deriving Repr

/-- How one Celery task execution ends: it returns, or it raises
`self.retry(exc=e, countdown=...)` to schedule another attempt. -/
inductive TaskSignal where
  | finished
  | retryScheduled (countdown : Nat)
deriving DecidableEq, Repr

/-- `db.query(Document).filter(Document.id == document_id).first()`. -/
def findDocument (st : AppState) (document_id : Nat) : Option Document :=
  st.documents.find? (fun d => d.id == document_id)

/-- Apply an update to the document with the given id and commit. -/
def updateDocument (st : AppState) (document_id : Nat)
    (f : Document → Document) : AppState :=
  { st with documents := st.documents.map (fun d =>
      if d.id == document_id then f d else d) }

/-- `max_retries=3` from the `@celery_app.task` decorator on
`process_document_task`. -/
def process_document_max_retries : Nat := 3

/-- `document.extraction_status = "processing"` (`tasks.py` line 76). -/
def procUpdate (d : Document) : Document :=
  { d with extraction_status := "processing" }

/-- The failure update of `tasks.py` lines 133-134: `extraction_status =
"failed"` and the error message truncated to 1000 characters. -/
def failUpdate (e : String) (d : Document) : Document :=
  { d with extraction_status := "failed",
           extraction_error := some (e.take 1000) }

/-- The success update of `tasks.py` lines 114-117: store the payload, mark
`completed`, record the extraction model and timestamp. -/
def okUpdate (payload : JVal) (t : Nat) (d : Document) : Document :=
  { d with extracted_json := some payload,
           extraction_status := "completed",
           extraction_model := some "gemini-1.5-flash",
           extracted_at := some t }

/-- One execution of `process_document_task` (`tasks.py` lines 55-145) at
retry count `retries` (`self.request.retries`).  A missing document returns
immediately; otherwise the status moves to `processing` (committed), the
extraction runs, and on success payload/status/model/timestamp are stored;
on any exception the status becomes `failed` with `str(e)[:1000]` stored,
and `self.retry(exc=e, countdown=60)` is raised while
`retries < max_retries`. -/
def process_document_task (st : AppState) (document_id : Nat)
    (retries : Nat) (outcome : ExtractionOutcome) : AppState × TaskSignal :=
  match findDocument st document_id with
  | none => (st, .finished)
  | some _ =>
    let st := updateDocument st document_id procUpdate
    match outcome with
    | .ok payload =>
      (updateDocument st document_id (okUpdate payload st.now), .finished)
    | .exn e =>
      let st := updateDocument st document_id (failUpdate e)
      if retries < process_document_max_retries then
        (st, .retryScheduled 60)
      else (st, .finished)

/-- The Celery retry loop around `process_document_task`: execute attempts
(one per element of `outcomes`, at increasing retry counts) until an
execution finishes without scheduling a retry.  Returns the final state and
the list of retry countdowns that were scheduled. -/
def run_document_task (st : AppState) (document_id : Nat) (retries : Nat) :
    List ExtractionOutcome → AppState × List Nat
  | [] => (st, [])
  | o :: rest =>
    let out := process_document_task st document_id retries o
    match out.2 with
    | .finished => (out.1, [])
    | .retryScheduled c =>
      let next := run_document_task out.1 document_id (retries + 1) rest
      (next.1, c :: next.2)

/-- `settings.DATA_RETENTION_DAYS` (`app/core/config.py` line 165);
`AppState.now` counts in the same day units here. -/
def data_retention_days : Nat := 90

/-- The return value of `purge_old_deleted_projects_task`. -/
structure PurgeOutcome where
  status : String
  purged_count : Nat
deriving DecidableEq, Repr

/-- The CASCADE hard delete of one project: the project row and its
dependent documents, requirements and matrix entries are removed. -/
def hardDeleteProject (st : AppState) (pid : Nat) : AppState :=
  let reqIds := (st.requirements.filter (fun r => r.project_id == pid)).map (·.id)
  { st with
    projects := st.projects.filter (fun p => !(p.id == pid)),
    documents := st.documents.filter (fun d => !(d.project_id == pid)),
    requirements := st.requirements.filter (fun r => !(r.project_id == pid)),
    matrix_entries := st.matrix_entries.filter (fun e =>
      !(reqIds.contains e.requirement_id)) }

/-- `purge_old_deleted_projects_task` (`tasks.py` lines 154-230).  For each
project soft-deleted before the retention cutoff it builds an `AuditLog`
with `user_id=None`, adds and flushes it, then hard-deletes the project.
`audit_logs.user_id` is a NOT NULL column
(`audit_user_id_column_nullable = false`), so the flush raises an
`IntegrityError`; the per-project `except` handler rolls back and
continues with the next project. -/
def purge_old_deleted_projects_task (st : AppState) :
    AppState × PurgeOutcome :=
  let cutoff := st.now - data_retention_days
  let projects_to_purge := st.projects.filter (fun p =>
    match p.deleted_at with
    | some t => decide (t < cutoff)
    | none => false)
  if projects_to_purge.isEmpty then
    (st, { status := "completed", purged_count := 0 })
  else
    let out := projects_to_purge.foldl (fun (acc : AppState × Nat) p =>
      let audit_entry : AuditRow :=
        { id := acc.1.next_audit_id,
          user_id := none,
          action := "PROJECT_PURGED",
          entity_type := some "project",
          entity_id := some p.id,
          details := some
            [("project_name", .s p.name),
             ("project_id", .n p.id),
             ("deleted_at", match p.deleted_at with
               | some t => .s (toString t)
               | none => .null),
             ("retention_days", .n data_retention_days),
             ("reason", .s "Automatic purge - retention period exceeded")],
          timestamp := acc.1.now }
      if audit_entry.user_id.isNone && !audit_user_id_column_nullable then
        acc
      else
        let s1 := { acc.1 with
          audit_logs := acc.1.audit_logs ++ [audit_entry],
          next_audit_id := acc.1.next_audit_id + 1 }
        (hardDeleteProject s1 p.id, acc.2 + 1)) (st, 0)
    (out.1, { status := "completed", purged_count := out.2 })

/-! ## Project-scoped audit query (`app/api/v1/audit.py` lines 90-209) -/

/-- Optional filters and pagination of `get_project_audit_logs`. -/
structure AuditQueryParams where
  action : Option String := none
  start_date : Option Nat := none
  end_date : Option Nat := none
  limit : Nat := 100
  offset : Nat := 0
deriving Repr

/-- Ids of the project's non-deleted documents (`audit.py` lines 112-119). -/
def projectDocIds (st : AppState) (project_id : Nat) : List Nat :=
  (st.documents.filter (fun d =>
    d.project_id == project_id && d.deleted_at.isNone)).map (·.id)

/-- Ids of the project's non-deleted requirements (lines 122-129). -/
def projectReqIds (st : AppState) (project_id : Nat) : List Nat :=
  (st.requirements.filter (fun r =>
    r.project_id == project_id && r.deleted_at.isNone)).map (·.id)

/-- Ids of the non-deleted matrix entries joined to the project's
non-deleted requirements (lines 132-141). -/
def projectMatrixIds (st : AppState) (project_id : Nat) : List Nat :=
  (st.matrix_entries.filter (fun e =>
    e.deleted_at.isNone && st.requirements.any (fun r =>
      r.id == e.requirement_id && r.project_id == project_id
        && r.deleted_at.isNone))).map (·.id)

/-- `AuditLog.entity_id.in_(ids)`: NULL is in no list. -/
def optIdIn (oid : Option Nat) (ids : List Nat) : Bool :=
  match oid with
  | some i => ids.contains i
  | none => false

/-- The `or_` of the per-entity-type `and_` filters (lines 147-166).  The
source appends a clause only when its id list is nonempty; since membership
in an empty list is false, dropping the guard gives the same predicate (the
project clause is always present, so `entity_filters` is never empty). -/
def auditEntityFilter (st : AppState) (project_id : Nat) (log : AuditRow) :
    Bool :=
  (log.entity_type == some "project" && log.entity_id == some project_id)
  || (log.entity_type == some "document" &&
      optIdIn log.entity_id (projectDocIds st project_id))
  || (log.entity_type == some "requirement" &&
      optIdIn log.entity_id (projectReqIds st project_id))
  || (log.entity_type == some "matrix_entry" &&
      optIdIn log.entity_id (projectMatrixIds st project_id))

/-- `get_project_audit_logs` (lines 90-209), entered after
`verify_project_access` succeeded: entity filter, optional action/date
filters, `ORDER BY timestamp DESC`, offset, limit. -/
def get_project_audit_logs (st : AppState) (project_id : Nat)
    (params : AuditQueryParams) : List AuditRow :=
  let filtered := st.audit_logs.filter (fun log =>
    auditEntityFilter st project_id log
    && (match params.action with
        | some a => log.action == a
        | none => true)
    && (match params.start_date with
        | some t => Nat.ble t log.timestamp
        | none => true)
    && (match params.end_date with
        | some t => Nat.ble log.timestamp t
        | none => true))
  ((sortBy (fun a b => Nat.ble b.timestamp a.timestamp) filtered).drop
    params.offset).take params.limit

/-! ## Project creation (`app/api/v1/projects.py` lines 122-164) -/

/-- `ProjectCreate` (`app/schemas/project.py`), the fields `create_project`
reads. -/
structure ProjectCreateData where
  name : String
  description : Option String := none
  status : String := "active"
  password : Option String := none
deriving DecidableEq, Repr

/-- Whether the audit insert/commit performed by `log_audit_event`
succeeds.  Used to observe what `create_project` leaves behind when the
audit write fails. -/
inductive AuditWriteBehavior where
  | succeeds
  | fails
deriving DecidableEq, Repr

/-- Model of `get_password_hash` (bcrypt): an injective tagging function. -/
def get_password_hash (s : String) : String := "bcrypt$" ++ s

/-- `create_project` (lines 122-164).  The project row is added and
COMMITTED (lines 146-148) before `log_audit_event` runs; the audit row goes
into a second, separate commit (`deps.py` lines 240-241).  When that second
write fails, the handler raises out of the endpoint but the project commit
has already happened. -/
def create_project (st : AppState) (u : User) (data : ProjectCreateData)
    (aw : AuditWriteBehavior) : AppState × Except (Nat × String) Project :=
  let password_hash : Option String :=
    match data.password with
    | some p => if p == "" then none else some (get_password_hash p)
    | none => none
  let project : Project :=
    { id := st.next_project_id, name := data.name, owner_id := u.id,
      status := data.status, password_hash := password_hash,
      deleted_at := none }
  let st1 := { st with projects := st.projects ++ [project],
                       next_project_id := st.next_project_id + 1 }
  match aw with
  | .fails => (st1, .error (500, "Internal Server Error"))
  | .succeeds =>
    (addAudit st1 (some u.id) "PROJECT_CREATED" (some "project")
      (some project.id)
      (some [("project_name", .s project.name),
             ("has_password", .b password_hash.isSome)]), .ok project)

/-! ## Concrete fixtures used by witnesses and counterexamples -/

/-- An empty store. -/
def stEmpty : AppState :=
  { projects := [], project_access := [], documents := [], requirements := [],
    matrix_entries := [], audit_logs := [], next_project_id := 1,
    next_entry_id := 1, next_audit_id := 1, now := 100 }

/-- An administrator principal. -/
def uAdmin : User := { id := 10, role := .admin }

/-- The engineer owning the fixture projects. -/
def uEng1 : User := { id := 1, role := .engineer }

/-- An engineer with a verified `ProjectAccess` for the locked project. -/
def uEng2 : User := { id := 2, role := .engineer }

/-- An engineer without any `ProjectAccess` record. -/
def uEng3 : User := { id := 3, role := .engineer }

/-- An unprotected project. -/
def pOpen : Project :=
  { id := 1, name := "Open Project", owner_id := 1, status := "active",
    password_hash := none, deleted_at := none }

/-- A password-protected project. -/
def pLocked : Project :=
  { id := 2, name := "Locked Project", owner_id := 1, status := "active",
    password_hash := some "bcrypt$pw", deleted_at := none }

/-- Store with an open and a locked project; engineer 2 has verified the
locked project's password. -/
def stAccess : AppState :=
  { stEmpty with projects := [pOpen, pLocked],
                 project_access := [{ user_id := 2, project_id := 2, verified_at := 50 }] }

/-- Payload of `ProjectCreate` used in the audit-transaction scenario. -/
def dataC1 : ProjectCreateData := { name := "Batch Record System" }

/-- The default AI configuration: Gemini selected and configured. -/
def cfgAI : AIConfig := {}

/-- The pending fixture document awaiting extraction. -/
def docPending : Document :=
  { id := 7, project_id := 1, original_filename := "spec.pdf",
    extraction_status := "pending", extracted_json := none,
    extraction_model := none, extraction_error := none, extracted_at := none,
    deleted_at := none }

/-- Store holding the pending fixture document. -/
def stDoc : AppState :=
  { stEmpty with projects := [pOpen], documents := [docPending] }

/-- The behaviour required of both provider implementations when the
provider raises (`.exn e`) or returns unparseable output
(`.resp text (.jsonError pmsg)`): the call yields a returned record (never a
propagated exception), classified "Requires Clarification" with confidence 0,
the two implementations' records agree on their top-level shape, and each
carries its own provider metadata. -/
def DegradedRecordContract (cfg : AIConfig) (req cat text e pmsg : String)
    (specs : Obj) (ctx : Option Obj) : Prop :=
  (generate_matrix_with_gemini cfg req cat specs ctx (.exn e) =
    .ok (aiErrorEntry e)) ∧
  (generate_matrix_with_ollama cfg req cat specs ctx (.exn e) =
    aiErrorEntry e) ∧
  (getStr (aiErrorEntry e) "compliance_status" =
    some "Requires Clarification") ∧
  (lookupKey (aiErrorEntry e) "confidence_score" = some (.n 0)) ∧
  (generate_matrix_with_gemini cfg req cat specs ctx
      (.resp text (.jsonError pmsg)) =
    .ok (aiParseFallbackEntry text pmsg ++
      [("generation_metadata", .obj (geminiMetadata cfg req cat))])) ∧
  (generate_matrix_with_ollama cfg req cat specs ctx
      (.resp text (.jsonError pmsg)) =
    aiParseFallbackEntry text pmsg ++
      [("generation_metadata", .obj (ollamaMetadata cfg req cat))]) ∧
  (getStr (aiParseFallbackEntry text pmsg) "compliance_status" =
    some "Requires Clarification") ∧
  (lookupKey (aiParseFallbackEntry text pmsg) "confidence_score" =
    some (.n 0)) ∧
  (topKeys (aiParseFallbackEntry text pmsg ++
      [("generation_metadata", .obj (geminiMetadata cfg req cat))]) =
    topKeys (aiParseFallbackEntry text pmsg ++
      [("generation_metadata", .obj (ollamaMetadata cfg req cat))])) ∧
  (∃ o1, generate_matrix_entry cfg req cat specs ctx (.exn e) = .ok o1) ∧
  (∃ o2, generate_matrix_entry cfg req cat specs ctx
      (.resp text (.jsonError pmsg)) = .ok o2)

/-- A live (non-deleted) fixture document of project 1. -/
def docLive : Document :=
  { id := 7, project_id := 1, original_filename := "live.pdf",
    extraction_status := "completed",
    extracted_json := some (.obj [("sections", .arr [])]),
    extraction_model := some "gemini-1.5-flash", extraction_error := none,
    extracted_at := some 40, deleted_at := none }

/-- A soft-deleted fixture document of project 1. -/
def docGone : Document :=
  { id := 8, project_id := 1, original_filename := "old.pdf",
    extraction_status := "completed",
    extracted_json := some (.obj [("sections", .arr [])]),
    extraction_model := some "gemini-1.5-flash", extraction_error := none,
    extracted_at := some 15, deleted_at := some 10 }

/-- Audit row about the live document. -/
def rowLive : AuditRow :=
  { id := 1, user_id := some 1, action := "DOCUMENT_UPLOADED",
    entity_type := some "document", entity_id := some 7, details := none,
    timestamp := 20 }

/-- Audit row about the soft-deleted document. -/
def rowGone : AuditRow :=
  { id := 2, user_id := some 1, action := "DOCUMENT_DELETED",
    entity_type := some "document", entity_id := some 8, details := none,
    timestamp := 30 }

/-- Store with one live and one soft-deleted document, each with an audit
row. -/
def stAudit : AppState :=
  { stEmpty with projects := [pOpen], documents := [docLive, docGone],
                 audit_logs := [rowLive, rowGone] }

/-- The fixture requirement of project 1. -/
def reqC2 : Requirement :=
  { id := 1, requirement_id := "REQ-001",
    description := "System shall log all changes",
    category := some "Functional", priority := "high", status := "pending",
    project_id := 1, deleted_at := none }

/-- Store for the generation scenarios: one extracted document and one
requirement, no matrix entries yet. -/
def stGen : AppState :=
  { stEmpty with projects := [pOpen], documents := [docLive],
                 requirements := [reqC2] }

/-- A well-formed provider response used by the generation witnesses. -/
def entryOk : Obj :=
  [("spec_reference", .s "Section 3.1"),
   ("supplier_response", .s "The system logs all changes"),
   ("justification", .s "Direct match"),
   ("compliance_status", .s "Compliant"),
   ("confidence_score", .n 95)]

/-- Provider outcomes: every call returns parseable output `entryOk`. -/
def outcomesOk : Nat → CallOutcome :=
  fun _ => .resp "ok" (.ok entryOk)

/-- A pre-existing non-deleted matrix entry for (requirement 1, document 7). -/
def exEntry : MatrixEntry :=
  { id := 1, requirement_id := 1, document_id := some 7,
    spec_reference := some "Section 2", supplier_response := some "old quote",
    justification := some "old", compliance_status := some "Partial",
    test_reference := none, risk_assessment := none, comments := none,
    generation_model := some "llama3.2:3b", generation_metadata := none,
    review_status := "pending", created_by := some 1,
    last_modified_by := none, deleted_at := none }

/-- `stGen` with the pre-existing entry, for the force-regeneration
scenario. -/
def stGen3 : AppState :=
  { stGen with matrix_entries := [exEntry], next_entry_id := 2 }

/-- A second fixture requirement of project 1 (no category). -/
def reqB2 : Requirement :=
  { id := 2, requirement_id := "REQ-002",
    description := "System shall export data", category := none,
    priority := "medium", status := "pending", project_id := 1,
    deleted_at := none }

/-- An existing non-deleted entry for requirement 2 (created by the batch
generator, hence without a document id). -/
def entryForReq2 : MatrixEntry :=
  { id := 1, requirement_id := 2, document_id := none,
    spec_reference := some "Section 9", supplier_response := some "export",
    justification := some "old", compliance_status := some "Compliant",
    test_reference := none, risk_assessment := none, comments := none,
    generation_model := some "llama3.2:3b", generation_metadata := none,
    review_status := "pending", created_by := some 1,
    last_modified_by := none, deleted_at := none }

/-- Store for the batch scenario: requirement 1 fresh, requirement 2 with
an existing entry. -/
def stBatch : AppState :=
  { stEmpty with projects := [pOpen], documents := [docLive],
                 requirements := [reqC2, reqB2],
                 matrix_entries := [entryForReq2], next_entry_id := 2 }

/-! ## General helper lemmas -/

/-- A fold whose step ignores its element is the identity. -/
theorem foldl_ignore {α β : Type _} (f : β → α → β) (i : β) (l : List α)
    (h : ∀ acc a, f acc a = acc) : l.foldl f i = i := by
  induction l generalizing i with
  | nil => rfl
  | cons a l ih => rw [List.foldl_cons, h, ih]

/-! ## C4 — administrators: read always allowed, write always denied -/

/-- C4: for every stored, non-deleted project and every administrator
principal, `verify_project_access` returns `True` and
`verify_project_write_access` raises 403; moreover the write check never
returns `True` for an administrator on any store and project id at all
(absent projects give 404, present ones 403). -/
theorem admin_read_allowed_write_denied (st : AppState) (project_id : Nat)
    (u : User) (p : Project) (hrole : u.role = UserRole.admin)
    (hp : lookupProject st project_id = .ok (some p)) :
    verify_project_access st project_id u = .allowed ∧
    verify_project_write_access st project_id u = .httpError 403
      "Admins have read-only access. Only engineers can modify projects." ∧
    ∀ (st' : AppState) (pid' : Nat),
      verify_project_write_access st' pid' u ≠ .allowed := by
  refine ⟨?_, ?_, ?_⟩
  · unfold verify_project_access
    rw [hp]
    simp [hrole]
  · unfold verify_project_write_access
    rw [hp]
    simp [hrole]
  · intro st' pid'
    unfold verify_project_write_access
    cases hq : lookupProject st' pid' with
    | error e => simp
    | ok o =>
      cases o with
      | none => simp
      | some q => simp [hrole]

/-- Witness for C4 at a concrete store: the admin reads project 1 and is
denied writes everywhere. -/
theorem admin_read_allowed_write_denied_witness :
    uAdmin.role = UserRole.admin ∧
    lookupProject stAccess 1 = .ok (some pOpen) ∧
    (verify_project_access stAccess 1 uAdmin = .allowed ∧
     verify_project_write_access stAccess 1 uAdmin = .httpError 403
       "Admins have read-only access. Only engineers can modify projects." ∧
     ∀ (st' : AppState) (pid' : Nat),
       verify_project_write_access st' pid' uAdmin ≠ .allowed) :=
  ⟨rfl, rfl, admin_read_allowed_write_denied stAccess 1 uAdmin pOpen rfl rfl⟩

/-! ## C5 — password-protected reads crash on a missing import -/

/-- C5 (code bug): on the password-protected, non-owner, non-admin path the
source evaluates `and_(...)` although `deps.py` never imports `and_`, so BOTH
the verified engineer (who holds the `ProjectAccess` record shown in the
third conjunct) and the unverified engineer get
`NameError: name 'and_' is not defined` (an HTTP 500), instead of the
claimed allowed read resp. `password_required` challenge. -/
theorem verify_access_protected_path_raises_name_error :
    verify_project_access stAccess 2 uEng2 =
      .pythonError "name 'and_' is not defined" ∧
    verify_project_access stAccess 2 uEng3 =
      .pythonError "name 'and_' is not defined" ∧
    stAccess.project_access = [{ user_id := 2, project_id := 2, verified_at := 50 }] :=
  ⟨rfl, rfl, rfl⟩

/-! ## C9 — retention purge is blocked by the NOT NULL audit actor column -/

/-- C9 (code bug): because `audit_logs.user_id` is `nullable=False` while
the purge task inserts `user_id=None`, every per-project iteration hits an
`IntegrityError`, rolls back and continues: for EVERY store the task leaves
the state untouched and reports `purged_count = 0`.  No system audit entry
is written and no project is ever hard-deleted. -/
theorem purge_task_never_purges (st : AppState) :
    purge_old_deleted_projects_task st =
      (st, { status := "completed", purged_count := 0 }) := by
  unfold purge_old_deleted_projects_task
  cases h : (st.projects.filter (fun p =>
      match p.deleted_at with
      | some t => decide (t < st.now - data_retention_days)
      | none => false)).isEmpty with
  | true => simp [h]
  | false =>
    simp only [h, Bool.false_eq_true, if_false]
    rw [foldl_ignore]
    · intro acc p
      simp [audit_user_id_column_nullable]

/-! ## C1 — audit rows are written outside the mutation's transaction -/

/-- C1 counterexample: starting from the empty store, `create_project`
whose audit write fails leaves the created project committed and visible
with NO audit row, and raises out of the endpoint — the mutation is not
rolled back, contradicting the same-transaction / fail-the-operation
claim. -/
theorem create_project_failed_audit_leaves_project :
    (create_project stEmpty uEng1 dataC1 .fails).1.projects.map (·.id) = [1] ∧
    (create_project stEmpty uEng1 dataC1 .fails).1.audit_logs = [] ∧
    (create_project stEmpty uEng1 dataC1 .fails).2 =
      .error (500, "Internal Server Error") :=
  ⟨rfl, rfl, rfl⟩

/-- C1 amended: `create_project` always commits the project first; when the
audit write succeeds one PROJECT_CREATED row describing the new project is
appended afterwards (in a separate transaction), and when the audit write
fails the project is still committed with the audit trail unchanged. -/
theorem create_project_commits_then_audits (st : AppState) (u : User)
    (data : ProjectCreateData) :
    ∃ project : Project,
      (create_project st u data .fails).1.projects = st.projects ++ [project] ∧
      (create_project st u data .fails).1.audit_logs = st.audit_logs ∧
      ∃ row : AuditRow,
        (create_project st u data .succeeds).1.projects = st.projects ++ [project] ∧
        (create_project st u data .succeeds).1.audit_logs = st.audit_logs ++ [row] ∧
        row.action = "PROJECT_CREATED" ∧
        row.entity_type = some "project" ∧
        row.entity_id = some project.id ∧
        row.user_id = some u.id :=
  ⟨_, rfl, rfl, _, rfl, rfl, rfl, rfl, rfl, rfl⟩

/-! ## C6 — provider failures become degraded records -/

/-- C6 amended: with the selected provider configured, any provider
exception and any unparseable output is absorbed into a returned degraded
record ("Requires Clarification", confidence 0) by both implementations and
by the dispatching `generate_matrix_entry`; the records of the two
implementations share their top-level shape (on the exception path they are
even identical), but their nested `generation_metadata` differs. -/
theorem degraded_record_uniform_and_absorbed (cfg : AIConfig)
    (req cat text e pmsg : String) (specs : Obj) (ctx : Option Obj)
    (hc : cfg.gemini_configured = true) :
    DegradedRecordContract cfg req cat text e pmsg specs ctx := by
  unfold DegradedRecordContract
  refine ⟨?_, ?_, ?_, ?_, ?_, ?_, ?_, ?_, ?_, ?_, ?_⟩
  · simp [generate_matrix_with_gemini, hc]
  · simp [generate_matrix_with_ollama]
  · simp [aiErrorEntry, getStr, lookupKey]
  · simp [aiErrorEntry, lookupKey]
  · simp [generate_matrix_with_gemini, hc, setKey, aiParseFallbackEntry]
  · simp [generate_matrix_with_ollama, setKey, aiParseFallbackEntry]
  · simp [aiParseFallbackEntry, getStr, lookupKey]
  · simp [aiParseFallbackEntry, lookupKey]
  · simp [topKeys, aiParseFallbackEntry]
  · by_cases hp : cfg.matrix_generation_provider == "gemini"
    · exact ⟨aiErrorEntry e,
        by simp [generate_matrix_entry, hp, generate_matrix_with_gemini, hc]⟩
    · exact ⟨generate_matrix_with_ollama cfg req cat specs ctx (.exn e),
        by simp [generate_matrix_entry, hp]⟩
  · by_cases hp : cfg.matrix_generation_provider == "gemini"
    · exact ⟨aiParseFallbackEntry text pmsg ++
          [("generation_metadata", .obj (geminiMetadata cfg req cat))],
        by simp [generate_matrix_entry, hp, generate_matrix_with_gemini, hc,
          setKey, aiParseFallbackEntry]⟩
    · exact ⟨generate_matrix_with_ollama cfg req cat specs ctx
          (.resp text (.jsonError pmsg)),
        by simp [generate_matrix_entry, hp]⟩

/-- Witness for C6's amended theorem at concrete inputs. -/
theorem degraded_record_uniform_and_absorbed_witness :
    cfgAI.gemini_configured = true ∧
    DegradedRecordContract cfgAI "R1" "Functional" "not json" "boom"
      "Expecting value" [] none :=
  ⟨rfl, degraded_record_uniform_and_absorbed cfgAI "R1" "Functional"
    "not json" "boom" "Expecting value" [] none rfl⟩

/-- C6 counterexample: on the parse-failure path the full returned records
of the two providers are NOT identical in shape — Gemini's nested
`generation_metadata` carries an extra `"provider"` key (and its own model
name), so the two-level key shapes differ at this concrete input. -/
theorem degraded_record_shape_differs_between_providers :
    (generate_matrix_with_gemini cfgAI "R1" "Functional" [] none
        (.resp "not json" (.jsonError "Expecting value"))).toOption.map objShape ≠
      some (objShape (generate_matrix_with_ollama cfgAI "R1" "Functional" []
        none (.resp "not json" (.jsonError "Expecting value")))) := by
  decide


/-! ## C8 — extraction state machine: bounded retries with 60s backoff -/

/-- `find?` over a conditional map that preserves the predicate commutes
with the map on the found element. -/
theorem find?_map_update {α : Type _} (p : α → Bool) (f : α → α)
    (hp : ∀ a, p (f a) = p a) (l : List α) :
    (l.map (fun a => if p a then f a else a)).find? p = (l.find? p).map f := by
  induction l with
  | nil => rfl
  | cons a l ih =>
    cases h : p a with
    | true =>
      rw [List.map_cons, if_pos h, List.find?_cons_of_pos _ ((hp a).trans h),
        List.find?_cons_of_pos _ h, Option.map_some']
    | false =>
      rw [List.map_cons, if_neg (by simp [h]),
        List.find?_cons_of_neg _ (by simp [h]),
        List.find?_cons_of_neg _ (by simp [h]), ih]

/-- A per-id document update is observed through `findDocument`. -/
theorem findDocument_update (st : AppState) (i : Nat) (f : Document → Document)
    (hf : ∀ d, (f d).id = d.id) :
    findDocument (updateDocument st i f) i = (findDocument st i).map f := by
  unfold findDocument updateDocument
  exact find?_map_update (fun d => d.id == i) f (fun d => by simp [hf]) st.documents

/-- Shape of one failing execution of `process_document_task`: the document
moves to `processing` and then to `failed` with the truncated error, and a
60-second retry is scheduled iff the retry budget is not exhausted. -/
theorem process_document_task_exn (st : AppState) (document_id : Nat)
    (retries : Nat) (e : String) (d : Document)
    (hdoc : findDocument st document_id = some d) :
    process_document_task st document_id retries (.exn e) =
      (updateDocument (updateDocument st document_id procUpdate) document_id
        (failUpdate e),
       if retries < process_document_max_retries then .retryScheduled 60
       else .finished) := by
  unfold process_document_task
  rw [hdoc]
  by_cases h : retries < process_document_max_retries <;> simp [h]

/-- Shape of one successful execution of `process_document_task`. -/
theorem process_document_task_ok (st : AppState) (document_id : Nat)
    (retries : Nat) (payload : JVal) (d : Document)
    (hdoc : findDocument st document_id = some d) :
    process_document_task st document_id retries (.ok payload) =
      (updateDocument (updateDocument st document_id procUpdate) document_id
        (okUpdate payload st.now),
       .finished) := by
  unfold process_document_task
  rw [hdoc]
  rfl

/-- The document is still found after a failing execution, now `failed`
with the truncated message. -/
theorem findDocument_after_exn (st : AppState) (document_id : Nat)
    (retries : Nat) (e : String) (d : Document)
    (hdoc : findDocument st document_id = some d) :
    findDocument (process_document_task st document_id retries (.exn e)).1
        document_id =
      some (failUpdate e (procUpdate d)) := by
  rw [process_document_task_exn st document_id retries e d hdoc]
  show findDocument (updateDocument _ _ _) _ = _
  rw [findDocument_update _ _ (failUpdate e) (fun d => rfl),
    findDocument_update _ _ procUpdate (fun d => rfl), hdoc]
  rfl

/-- The document is `completed` after a successful execution. -/
theorem findDocument_after_ok (st : AppState) (document_id : Nat)
    (retries : Nat) (payload : JVal) (d : Document)
    (hdoc : findDocument st document_id = some d) :
    findDocument (process_document_task st document_id retries (.ok payload)).1
        document_id =
      some (okUpdate payload st.now (procUpdate d)) := by
  rw [process_document_task_ok st document_id retries payload d hdoc]
  show findDocument (updateDocument _ _ _) _ = _
  rw [findDocument_update _ _ (okUpdate payload st.now) (fun d => rfl),
    findDocument_update _ _ procUpdate (fun d => rfl), hdoc]
  rfl

/-- A failing attempt within the retry budget prepends a 60-second countdown
and continues on the failed state with an incremented retry count. -/
theorem run_document_task_cons_exn (st : AppState) (document_id : Nat)
    (retries : Nat) (e : String) (rest : List ExtractionOutcome)
    (d : Document) (hdoc : findDocument st document_id = some d)
    (hr : retries < process_document_max_retries) :
    run_document_task st document_id retries (.exn e :: rest) =
      ((run_document_task (process_document_task st document_id retries (.exn e)).1
          document_id (retries + 1) rest).1,
       60 :: (run_document_task (process_document_task st document_id retries (.exn e)).1
          document_id (retries + 1) rest).2) := by
  conv_lhs => rw [run_document_task]
  rw [process_document_task_exn st document_id retries e d hdoc]
  simp [hr, process_document_task_exn st document_id retries e d hdoc]

/-- A failing attempt with the retry budget exhausted ends the task. -/
theorem run_document_task_cons_exn_last (st : AppState) (document_id : Nat)
    (retries : Nat) (e : String) (rest : List ExtractionOutcome)
    (d : Document) (hdoc : findDocument st document_id = some d)
    (hr : ¬retries < process_document_max_retries) :
    run_document_task st document_id retries (.exn e :: rest) =
      ((process_document_task st document_id retries (.exn e)).1, []) := by
  conv_lhs => rw [run_document_task]
  rw [process_document_task_exn st document_id retries e d hdoc]
  simp [hr, process_document_task_exn st document_id retries e d hdoc]

/-- A successful attempt ends the task. -/
theorem run_document_task_cons_ok (st : AppState) (document_id : Nat)
    (retries : Nat) (payload : JVal) (rest : List ExtractionOutcome)
    (d : Document) (hdoc : findDocument st document_id = some d) :
    run_document_task st document_id retries (.ok payload :: rest) =
      ((process_document_task st document_id retries (.ok payload)).1, []) := by
  conv_lhs => rw [run_document_task]
  rw [process_document_task_ok st document_id retries payload d hdoc]

/-- C8: for a stored document, (a) an extraction exception moves it to
`failed` with `str(e)[:1000]` stored and schedules a retry after 60 seconds;
(b) persistent failures are retried exactly `max_retries = 3` times, each
with a 60-second countdown, before the task settles with the document
permanently `failed`; (c) one transient failure followed by a success ends
with the document `completed` after a single 60-second retry. -/
theorem extraction_failure_retry_then_settle (st : AppState)
    (document_id : Nat) (d : Document)
    (hdoc : findDocument st document_id = some d)
    (m1 m2 m3 m4 : String) (payload : JVal) :
    ((process_document_task st document_id 0 (.exn m1)).2 =
      .retryScheduled 60) ∧
    ((findDocument (process_document_task st document_id 0 (.exn m1)).1
        document_id).map (fun d => (d.extraction_status, d.extraction_error)) =
      some ("failed", some (m1.take 1000))) ∧
    ((run_document_task st document_id 0
        [.exn m1, .exn m2, .exn m3, .exn m4]).2 = [60, 60, 60]) ∧
    ((findDocument (run_document_task st document_id 0
          [.exn m1, .exn m2, .exn m3, .exn m4]).1 document_id).map
        (fun d => (d.extraction_status, d.extraction_error)) =
      some ("failed", some (m4.take 1000))) ∧
    ((run_document_task st document_id 0 [.exn m1, .ok payload]).2 = [60]) ∧
    ((findDocument (run_document_task st document_id 0
          [.exn m1, .ok payload]).1 document_id).map (·.extraction_status) =
      some "completed") := by
  have h0 : (0 : Nat) < process_document_max_retries := by decide
  have h1 : (1 : Nat) < process_document_max_retries := by decide
  have h2 : (2 : Nat) < process_document_max_retries := by decide
  have h3 : ¬(3 : Nat) < process_document_max_retries := by decide
  have hd1 := findDocument_after_exn st document_id 0 m1 d hdoc
  have hd2 := findDocument_after_exn _ document_id 1 m2 _ hd1
  have hd3 := findDocument_after_exn _ document_id 2 m3 _ hd2
  have hd4 := findDocument_after_exn _ document_id 3 m4 _ hd3
  refine ⟨?_, ?_, ?_, ?_, ?_, ?_⟩
  · rw [process_document_task_exn st document_id 0 m1 d hdoc]
    simp [h0]
  · rw [hd1]
    rfl
  · rw [run_document_task_cons_exn st document_id 0 m1 _ d hdoc h0,
      run_document_task_cons_exn _ document_id 1 m2 _ _ hd1 h1,
      run_document_task_cons_exn _ document_id 2 m3 _ _ hd2 h2,
      run_document_task_cons_exn_last _ document_id 3 m4 _ _ hd3 h3]
  · rw [run_document_task_cons_exn st document_id 0 m1 _ d hdoc h0,
      run_document_task_cons_exn _ document_id 1 m2 _ _ hd1 h1,
      run_document_task_cons_exn _ document_id 2 m3 _ _ hd2 h2,
      run_document_task_cons_exn_last _ document_id 3 m4 _ _ hd3 h3, hd4]
    rfl
  · rw [run_document_task_cons_exn st document_id 0 m1 _ d hdoc h0,
      run_document_task_cons_ok _ document_id 1 payload _ _ hd1]
  · rw [run_document_task_cons_exn st document_id 0 m1 _ d hdoc h0,
      run_document_task_cons_ok _ document_id 1 payload _ _ hd1,
      findDocument_after_ok _ document_id 1 payload _ hd1]
    rfl

/-- Witness for C8 at a concrete store and concrete error messages. -/
theorem extraction_failure_retry_then_settle_witness :
    findDocument stDoc 7 = some docPending ∧
    (((process_document_task stDoc 7 0 (.exn "timeout A")).2 =
        .retryScheduled 60) ∧
     ((findDocument (process_document_task stDoc 7 0 (.exn "timeout A")).1
         7).map (fun d => (d.extraction_status, d.extraction_error)) =
       some ("failed", some ("timeout A".take 1000))) ∧
     ((run_document_task stDoc 7 0
         [.exn "timeout A", .exn "timeout B", .exn "timeout C",
          .exn "timeout D"]).2 = [60, 60, 60]) ∧
     ((findDocument (run_document_task stDoc 7 0
           [.exn "timeout A", .exn "timeout B", .exn "timeout C",
            .exn "timeout D"]).1 7).map
         (fun d => (d.extraction_status, d.extraction_error)) =
       some ("failed", some ("timeout D".take 1000))) ∧
     ((run_document_task stDoc 7 0
         [.exn "timeout A", .ok (.obj [("sections", .arr [])])]).2 = [60]) ∧
     ((findDocument (run_document_task stDoc 7 0
           [.exn "timeout A", .ok (.obj [("sections", .arr [])])]).1 7).map
         (·.extraction_status) = some "completed")) :=
  ⟨rfl, extraction_failure_retry_then_settle stDoc 7 docPending rfl
    "timeout A" "timeout B" "timeout C" "timeout D"
    (.obj [("sections", .arr [])])⟩

/-! ## C10 — the project audit view hides soft-deleted subjects -/

/-- Membership in an insertion-sorted list. -/
theorem mem_insertSorted {α : Type _} (le : α → α → Bool) (a b : α)
    (l : List α) : b ∈ insertSorted le a l ↔ b = a ∨ b ∈ l := by
  induction l with
  | nil => simp [insertSorted]
  | cons c l ih =>
    by_cases h : le a c
    · simp [insertSorted, h]
    · simp only [insertSorted, h, Bool.false_eq_true, if_false,
        List.mem_cons, ih]
      tauto

/-- Sorting does not change membership. -/
theorem mem_sortBy {α : Type _} (le : α → α → Bool) (b : α) (l : List α) :
    b ∈ sortBy le l ↔ b ∈ l := by
  induction l with
  | nil => simp [sortBy]
  | cons a l ih => simp [sortBy, mem_insertSorted, ih]

/-- `optIdIn` unfolded. -/
theorem optIdIn_eq_true {oid : Option Nat} {ids : List Nat}
    (h : optIdIn oid ids = true) : ∃ i, oid = some i ∧ i ∈ ids := by
  cases oid with
  | none => simp [optIdIn] at h
  | some i =>
    refine ⟨i, rfl, ?_⟩
    simpa [optIdIn] using h

/-- Unpacking membership in the live-document id list. -/
theorem mem_projectDocIds {st : AppState} {project_id i : Nat}
    (h : i ∈ projectDocIds st project_id) :
    ∃ d ∈ st.documents,
      d.id = i ∧ d.project_id = project_id ∧ d.deleted_at = none := by
  unfold projectDocIds at h
  rcases List.mem_map.mp h with ⟨d, hd, hid⟩
  rcases List.mem_filter.mp hd with ⟨hmem, hpred⟩
  simp only [Bool.and_eq_true, beq_iff_eq, Option.isNone_iff_eq_none] at hpred
  exact ⟨d, hmem, hid, hpred.1, hpred.2⟩

/-- Unpacking membership in the live-requirement id list. -/
theorem mem_projectReqIds {st : AppState} {project_id i : Nat}
    (h : i ∈ projectReqIds st project_id) :
    ∃ r ∈ st.requirements,
      r.id = i ∧ r.project_id = project_id ∧ r.deleted_at = none := by
  unfold projectReqIds at h
  rcases List.mem_map.mp h with ⟨r, hr, hid⟩
  rcases List.mem_filter.mp hr with ⟨hmem, hpred⟩
  simp only [Bool.and_eq_true, beq_iff_eq, Option.isNone_iff_eq_none] at hpred
  exact ⟨r, hmem, hid, hpred.1, hpred.2⟩

/-- Unpacking membership in the joined live-matrix-entry id list. -/
theorem mem_projectMatrixIds {st : AppState} {project_id i : Nat}
    (h : i ∈ projectMatrixIds st project_id) :
    ∃ e ∈ st.matrix_entries,
      e.id = i ∧ e.deleted_at = none ∧
      ∃ r ∈ st.requirements,
        r.id = e.requirement_id ∧ r.project_id = project_id ∧
        r.deleted_at = none := by
  unfold projectMatrixIds at h
  rcases List.mem_map.mp h with ⟨e, he, hid⟩
  rcases List.mem_filter.mp he with ⟨hmem, hpred⟩
  simp only [Bool.and_eq_true, Option.isNone_iff_eq_none,
    List.any_eq_true, beq_iff_eq] at hpred
  rcases hpred with ⟨hdel, r, hr, ⟨hrid, hrpid⟩, hrdel⟩
  exact ⟨e, hmem, hid, hdel, r, hr, hrid, hrpid, hrdel⟩

/-- C10: every row returned by the project-scoped audit query concerns the
project itself or a CURRENTLY non-deleted document / requirement / matrix
entry of the project (for matrix entries, additionally one whose requirement
is non-deleted).  Audit rows about soft-deleted subjects are filtered out of
the view even though they remain in `audit_logs`. -/
theorem project_audit_logs_only_live_subjects (st : AppState)
    (project_id : Nat) (params : AuditQueryParams) (log : AuditRow)
    (hmem : log ∈ get_project_audit_logs st project_id params) :
    (log.entity_type = some "project" → log.entity_id = some project_id) ∧
    (log.entity_type = some "document" →
      ∃ d ∈ st.documents,
        log.entity_id = some d.id ∧ d.project_id = project_id ∧
        d.deleted_at = none) ∧
    (log.entity_type = some "requirement" →
      ∃ r ∈ st.requirements,
        log.entity_id = some r.id ∧ r.project_id = project_id ∧
        r.deleted_at = none) ∧
    (log.entity_type = some "matrix_entry" →
      ∃ e ∈ st.matrix_entries,
        log.entity_id = some e.id ∧ e.deleted_at = none ∧
        ∃ r ∈ st.requirements,
          r.id = e.requirement_id ∧ r.project_id = project_id ∧
          r.deleted_at = none) := by
  unfold get_project_audit_logs at hmem
  have h1 : log ∈ sortBy (fun a b => Nat.ble b.timestamp a.timestamp)
      (st.audit_logs.filter _) :=
    List.drop_subset _ _ (List.take_subset _ _ hmem)
  have h2 := (mem_sortBy _ _ _).mp h1
  have h3 := List.mem_filter.mp h2
  have hent : auditEntityFilter st project_id log = true := by
    have := h3.2
    simp only [Bool.and_eq_true] at this
    exact this.1.1.1
  unfold auditEntityFilter at hent
  simp only [Bool.or_eq_true, Bool.and_eq_true, beq_iff_eq] at hent
  refine ⟨?_, ?_, ?_, ?_⟩
  · intro ht
    rcases hent with ((⟨_, hid⟩ | ⟨ht2, _⟩) | ⟨ht2, _⟩) | ⟨ht2, _⟩
    · exact hid
    · rw [ht] at ht2; simp at ht2
    · rw [ht] at ht2; simp at ht2
    · rw [ht] at ht2; simp at ht2
  · intro ht
    rcases hent with ((⟨ht2, _⟩ | ⟨_, hin⟩) | ⟨ht2, _⟩) | ⟨ht2, _⟩
    · rw [ht] at ht2; simp at ht2
    · rcases optIdIn_eq_true hin with ⟨i, hoid, hids⟩
      rcases mem_projectDocIds hids with ⟨d, hd, hdi, hdp, hdd⟩
      exact ⟨d, hd, hdi ▸ hoid, hdp, hdd⟩
    · rw [ht] at ht2; simp at ht2
    · rw [ht] at ht2; simp at ht2
  · intro ht
    rcases hent with ((⟨ht2, _⟩ | ⟨ht2, _⟩) | ⟨_, hin⟩) | ⟨ht2, _⟩
    · rw [ht] at ht2; simp at ht2
    · rw [ht] at ht2; simp at ht2
    · rcases optIdIn_eq_true hin with ⟨i, hoid, hids⟩
      rcases mem_projectReqIds hids with ⟨r, hr, hri, hrp, hrd⟩
      exact ⟨r, hr, hri ▸ hoid, hrp, hrd⟩
    · rw [ht] at ht2; simp at ht2
  · intro ht
    rcases hent with ((⟨ht2, _⟩ | ⟨ht2, _⟩) | ⟨ht2, _⟩) | ⟨_, hin⟩
    · rw [ht] at ht2; simp at ht2
    · rw [ht] at ht2; simp at ht2
    · rw [ht] at ht2; simp at ht2
    · rcases optIdIn_eq_true hin with ⟨i, hoid, hids⟩
      rcases mem_projectMatrixIds hids with ⟨e, he, hei, hed, r, hr, hrr, hrp, hrd⟩
      exact ⟨e, he, hei ▸ hoid, hed, r, hr, hrr, hrp, hrd⟩

/-- Witness for C10: in the fixture store the query over project 1 returns
exactly the row about the live document, and the theorem yields its live
subject; the row about the soft-deleted document is absent. -/
theorem project_audit_logs_only_live_subjects_witness :
    rowLive ∈ get_project_audit_logs stAudit 1 {} ∧
    ((rowLive.entity_type = some "project" →
        rowLive.entity_id = some 1) ∧
     (rowLive.entity_type = some "document" →
        ∃ d ∈ stAudit.documents,
          rowLive.entity_id = some d.id ∧ d.project_id = 1 ∧
          d.deleted_at = none) ∧
     (rowLive.entity_type = some "requirement" →
        ∃ r ∈ stAudit.requirements,
          rowLive.entity_id = some r.id ∧ r.project_id = 1 ∧
          r.deleted_at = none) ∧
     (rowLive.entity_type = some "matrix_entry" →
        ∃ e ∈ stAudit.matrix_entries,
          rowLive.entity_id = some e.id ∧ e.deleted_at = none ∧
          ∃ r ∈ stAudit.requirements,
            r.id = e.requirement_id ∧ r.project_id = 1 ∧
            r.deleted_at = none)) :=
  have hmem : rowLive ∈ get_project_audit_logs stAudit 1 {} :=
    List.Mem.head _
  ⟨hmem, project_audit_logs_only_live_subjects stAudit 1 {} rowLive hmem⟩


/-! ## C2/C3 — idempotent generation and forced regeneration -/

/-- Under a configured provider, `generate_matrix_entry` never raises. -/
theorem generate_matrix_entry_ne_error (cfg : AIConfig)
    (hcfg : cfg.matrix_generation_provider = "gemini" →
      cfg.gemini_configured = true)
    (req cat : String) (specs : Obj) (ctx : Option Obj)
    (outcome : CallOutcome) (msg : String) :
    generate_matrix_entry cfg req cat specs ctx outcome ≠ .error msg := by
  unfold generate_matrix_entry generate_matrix_with_gemini
  by_cases hp : cfg.matrix_generation_provider == "gemini"
  · have hc : cfg.gemini_configured = true := hcfg (by simpa using hp)
    cases outcome <;> simp [hp, hc]
  · simp [hp]

/-- One `analyze_document` call on a pair with no existing entry: the AI
result is persisted as a new entry, reported as created (`skipped = 0`),
whatever the `force` flag. -/
theorem analyze_document_single_fresh (cfg : AIConfig) (st : AppState)
    (project_id : Nat) (u : User) (document : Document) (r : Requirement)
    (force : Bool) (outcomes : Nat → CallOutcome) (matrix_data : Obj)
    (hgen : generate_matrix_entry cfg r.description
      (categoryOrGeneral r.category) (formattedSpecs document) none
      (outcomes r.id) = .ok matrix_data)
    (hdoc : documentQuery st document.id project_id = [document])
    (hstatus : document.extraction_status = "completed")
    (hjson : optTruthy document.extracted_json = true)
    (hreq : requirementsQuery st [r.id] project_id = [r])
    (hpair : pairQuery st r.id document.id = []) :
    analyze_document cfg st project_id u
        { document_id := document.id, requirement_ids := [r.id],
          force_regenerate := force } outcomes =
      (addEntryWithAudit cfg u document r matrix_data st,
       .ok { message := "Generated 1 matrix entries",
             entry_ids := [st.next_entry_id], skipped := 0 }) := by
  unfold analyze_document
  rw [hdoc]
  simp only [scalarOneOrNone, hstatus, hjson, hreq, List.foldl_cons,
    List.foldl_nil, List.length_cons, List.length_nil]
  simp only [analyzeStep, hpair, scalarOneOrNone, hgen]
  simp only [List.nil_append, List.length_singleton, List.length_nil]
  rfl

/-- One `analyze_document` call with `force_regenerate=False` on a pair that
already has a non-deleted entry: nothing changes and the call reports
`skipped = 1`. -/
theorem analyze_document_single_skip (cfg : AIConfig) (st : AppState)
    (project_id : Nat) (u : User) (document : Document) (r : Requirement)
    (outcomes : Nat → CallOutcome) (ex : MatrixEntry)
    (hdoc : documentQuery st document.id project_id = [document])
    (hstatus : document.extraction_status = "completed")
    (hjson : optTruthy document.extracted_json = true)
    (hreq : requirementsQuery st [r.id] project_id = [r])
    (hpair : pairQuery st r.id document.id = [ex]) :
    analyze_document cfg st project_id u
        { document_id := document.id, requirement_ids := [r.id],
          force_regenerate := false } outcomes =
      (st, .ok { message := "Generated 0 matrix entries",
                 entry_ids := [], skipped := 1 }) := by
  unfold analyze_document
  rw [hdoc]
  simp only [scalarOneOrNone, hstatus, hjson, hreq, List.foldl_cons,
    List.foldl_nil, List.length_cons, List.length_nil]
  simp only [analyzeStep, hpair, scalarOneOrNone]
  simp
  try rfl

/-- One `analyze_document` call with `force_regenerate=True` on a pair with
exactly one existing entry: the old entry is soft-deleted, the deletion is
audited with reason `force_regenerate`, and a new entry is created and
audited. -/
theorem analyze_document_single_force (cfg : AIConfig) (st : AppState)
    (project_id : Nat) (u : User) (document : Document) (r : Requirement)
    (outcomes : Nat → CallOutcome) (ex : MatrixEntry) (matrix_data : Obj)
    (hgen : generate_matrix_entry cfg r.description
      (categoryOrGeneral r.category) (formattedSpecs document) none
      (outcomes r.id) = .ok matrix_data)
    (hdoc : documentQuery st document.id project_id = [document])
    (hstatus : document.extraction_status = "completed")
    (hjson : optTruthy document.extracted_json = true)
    (hreq : requirementsQuery st [r.id] project_id = [r])
    (hpair : pairQuery st r.id document.id = [ex]) :
    analyze_document cfg st project_id u
        { document_id := document.id, requirement_ids := [r.id],
          force_regenerate := true } outcomes =
      (addEntryWithAudit cfg u document r matrix_data
        (addAudit (softDeleteEntry st ex.id) (some u.id)
          "MATRIX_ENTRY_DELETED" (some "matrix_entry") (some ex.id)
          (some [("reason", .s "force_regenerate"),
                 ("requirement_id", .s r.requirement_id),
                 ("document_id", .n document.id)])),
       .ok { message := "Generated 1 matrix entries",
             entry_ids := [st.next_entry_id], skipped := 0 }) := by
  unfold analyze_document
  rw [hdoc]
  simp only [scalarOneOrNone, hstatus, hjson, hreq, List.foldl_cons,
    List.foldl_nil, List.length_cons, List.length_nil]
  simp only [analyzeStep, hpair, scalarOneOrNone, hgen]
  simp
  exact ⟨rfl, rfl⟩

/-- Soft deleting the only pair-matching entry leaves no non-deleted entry
for the pair among the updated rows. -/
theorem pairFilter_softdelete_nil (l : List MatrixEntry) (rid did : Nat)
    (exid t : Nat)
    (h : ∀ e ∈ l, pairPred rid did e = true → e.id = exid) :
    (l.map (fun e => if e.id == exid then { e with deleted_at := some t }
      else e)).filter (pairPred rid did) = [] := by
  induction l with
  | nil => rfl
  | cons a l ih =>
    have ih' := ih (fun e he hp => h e (List.mem_cons_of_mem _ he) hp)
    by_cases ha : a.id == exid
    · rw [List.map_cons, if_pos ha, List.filter_cons_of_neg, ih']
      simp [pairPred]
    · rw [List.map_cons, if_neg ha, List.filter_cons_of_neg, ih']
      cases hp : pairPred rid did a with
      | false => simp
      | true => exact absurd (h a (List.mem_cons_self _ _) hp) (by simpa using ha)

/-- C2: for a (requirement, document) pair of one project whose document
has completed extraction and which has no matrix entry yet, calling the
generation endpoint with `force_regenerate=false` twice yields "created"
(the new entry reported, `skipped = 0`) then "skipped" (`skipped = 1`, no
state change at all), leaving exactly one non-deleted MatrixEntry for the
pair. -/
theorem generate_force_false_twice (cfg : AIConfig) (st : AppState)
    (project_id : Nat) (u : User) (document : Document) (r : Requirement)
    (outcomes : Nat → CallOutcome)
    (hcfg : cfg.matrix_generation_provider = "gemini" →
      cfg.gemini_configured = true)
    (hdoc : documentQuery st document.id project_id = [document])
    (hstatus : document.extraction_status = "completed")
    (hjson : optTruthy document.extracted_json = true)
    (hreq : requirementsQuery st [r.id] project_id = [r])
    (hpair : pairQuery st r.id document.id = []) :
    ∃ st1 entry,
      analyze_document cfg st project_id u
          { document_id := document.id, requirement_ids := [r.id],
            force_regenerate := false } outcomes =
        (st1, .ok { message := "Generated 1 matrix entries",
                    entry_ids := [st.next_entry_id], skipped := 0 }) ∧
      pairQuery st1 r.id document.id = [entry] ∧
      entry.id = st.next_entry_id ∧
      entry.deleted_at = none ∧
      entry.review_status = "pending" ∧
      analyze_document cfg st1 project_id u
          { document_id := document.id, requirement_ids := [r.id],
            force_regenerate := false } outcomes =
        (st1, .ok { message := "Generated 0 matrix entries",
                    entry_ids := [], skipped := 1 }) := by
  cases hx : generate_matrix_entry cfg r.description
      (categoryOrGeneral r.category) (formattedSpecs document) none
      (outcomes r.id) with
  | error msg =>
    exact absurd hx (generate_matrix_entry_ne_error cfg hcfg _ _ _ _ _ msg)
  | ok matrix_data =>
    refine ⟨addEntryWithAudit cfg u document r matrix_data st,
      newMatrixEntry cfg u document r matrix_data st.next_entry_id,
      analyze_document_single_fresh cfg st project_id u document r false
        outcomes matrix_data hx hdoc hstatus hjson hreq hpair,
      ?_, rfl, rfl, rfl, ?_⟩
    · show pairFilter (st.matrix_entries ++
        [newMatrixEntry cfg u document r matrix_data st.next_entry_id])
          r.id document.id = _
      unfold pairFilter
      rw [List.filter_append]
      have h1 : st.matrix_entries.filter (pairPred r.id document.id) = [] :=
        hpair
      rw [h1]
      simp [pairPred, newMatrixEntry]
    · refine analyze_document_single_skip cfg _ project_id u document r
        outcomes (newMatrixEntry cfg u document r matrix_data
          st.next_entry_id) hdoc hstatus hjson hreq ?_
      show pairFilter (st.matrix_entries ++
        [newMatrixEntry cfg u document r matrix_data st.next_entry_id])
          r.id document.id = _
      unfold pairFilter
      rw [List.filter_append]
      have h1 : st.matrix_entries.filter (pairPred r.id document.id) = [] :=
        hpair
      rw [h1]
      simp [pairPred, newMatrixEntry]

/-- Witness for C2 at the fixture store: requirement 1 and document 7. -/
theorem generate_force_false_twice_witness :
    (cfgAI.matrix_generation_provider = "gemini" →
      cfgAI.gemini_configured = true) ∧
    documentQuery stGen docLive.id 1 = [docLive] ∧
    docLive.extraction_status = "completed" ∧
    optTruthy docLive.extracted_json = true ∧
    requirementsQuery stGen [reqC2.id] 1 = [reqC2] ∧
    pairQuery stGen reqC2.id docLive.id = [] ∧
    (∃ st1 entry,
      analyze_document cfgAI stGen 1 uEng1
          { document_id := docLive.id, requirement_ids := [reqC2.id],
            force_regenerate := false } outcomesOk =
        (st1, .ok { message := "Generated 1 matrix entries",
                    entry_ids := [stGen.next_entry_id], skipped := 0 }) ∧
      pairQuery st1 reqC2.id docLive.id = [entry] ∧
      entry.id = stGen.next_entry_id ∧
      entry.deleted_at = none ∧
      entry.review_status = "pending" ∧
      analyze_document cfgAI st1 1 uEng1
          { document_id := docLive.id, requirement_ids := [reqC2.id],
            force_regenerate := false } outcomesOk =
        (st1, .ok { message := "Generated 0 matrix entries",
                    entry_ids := [], skipped := 1 })) :=
  ⟨fun _ => rfl, rfl, rfl, rfl, rfl, rfl,
    generate_force_false_twice cfgAI stGen 1 uEng1 docLive reqC2 outcomesOk
      (fun _ => rfl) rfl rfl rfl rfl rfl⟩


/-- C3: calling generation with `force_regenerate=true` on a pair with an
existing non-deleted entry soft-deletes that entry, audits the deletion with
reason `force_regenerate`, audits and creates exactly one new pending entry
for the pair.  `hfresh` states the new primary key is fresh. -/
theorem generate_force_true_regenerates (cfg : AIConfig) (st : AppState)
    (project_id : Nat) (u : User) (document : Document) (r : Requirement)
    (outcomes : Nat → CallOutcome) (ex : MatrixEntry)
    (hcfg : cfg.matrix_generation_provider = "gemini" →
      cfg.gemini_configured = true)
    (hdoc : documentQuery st document.id project_id = [document])
    (hstatus : document.extraction_status = "completed")
    (hjson : optTruthy document.extracted_json = true)
    (hreq : requirementsQuery st [r.id] project_id = [r])
    (hpair : pairQuery st r.id document.id = [ex])
    (hfresh : st.next_entry_id ≠ ex.id) :
    ∃ st1 entry,
      analyze_document cfg st project_id u
          { document_id := document.id, requirement_ids := [r.id],
            force_regenerate := true } outcomes =
        (st1, .ok { message := "Generated 1 matrix entries",
                    entry_ids := [st.next_entry_id], skipped := 0 }) ∧
      (∀ e ∈ st1.matrix_entries, e.id = ex.id →
        e.deleted_at = some st.now) ∧
      (∃ drow ∈ st1.audit_logs,
        drow.action = "MATRIX_ENTRY_DELETED" ∧
        drow.entity_type = some "matrix_entry" ∧
        drow.entity_id = some ex.id ∧
        drow.details.map (fun o => getStr o "reason") =
          some (some "force_regenerate")) ∧
      (∃ grow ∈ st1.audit_logs,
        grow.action = "MATRIX_ENTRY_GENERATED" ∧
        grow.entity_id = some st.next_entry_id) ∧
      pairQuery st1 r.id document.id = [entry] ∧
      entry.id = st.next_entry_id ∧
      entry.deleted_at = none ∧
      entry.review_status = "pending" := by
  cases hx : generate_matrix_entry cfg r.description
      (categoryOrGeneral r.category) (formattedSpecs document) none
      (outcomes r.id) with
  | error msg =>
    exact absurd hx (generate_matrix_entry_ne_error cfg hcfg _ _ _ _ _ msg)
  | ok matrix_data =>
    have hall : ∀ e ∈ st.matrix_entries,
        pairPred r.id document.id e = true → e.id = ex.id := by
      intro e he hp
      have hmem : e ∈ pairQuery st r.id document.id :=
        List.mem_filter.mpr ⟨he, hp⟩
      rw [hpair] at hmem
      rw [List.mem_singleton.mp hmem]
    refine ⟨addEntryWithAudit cfg u document r matrix_data
        (addAudit (softDeleteEntry st ex.id) (some u.id)
          "MATRIX_ENTRY_DELETED" (some "matrix_entry") (some ex.id)
          (some [("reason", .s "force_regenerate"),
                 ("requirement_id", .s r.requirement_id),
                 ("document_id", .n document.id)])),
      newMatrixEntry cfg u document r matrix_data st.next_entry_id,
      analyze_document_single_force cfg st project_id u document r outcomes
        ex matrix_data hx hdoc hstatus hjson hreq hpair,
      ?_, ?_, ?_, ?_, rfl, rfl, rfl⟩
    · intro e he hid
      rcases List.mem_append.mp he with hmem | hmem
      · rcases List.mem_map.mp hmem with ⟨orig, _, heq⟩
        by_cases hcase : orig.id == ex.id
        · rw [← heq, if_pos hcase]
        · rw [← heq, if_neg hcase] at hid
          exact absurd hid (by simpa using hcase)
      · rw [List.mem_singleton.mp hmem] at hid
        exact absurd hid hfresh
    · refine ⟨{ id := st.next_audit_id,
                user_id := some u.id,
                action := "MATRIX_ENTRY_DELETED",
                entity_type := some "matrix_entry",
                entity_id := some ex.id,
                details := some [("reason", .s "force_regenerate"),
                                 ("requirement_id", .s r.requirement_id),
                                 ("document_id", .n document.id)],
                timestamp := st.now }, ?_, rfl, rfl, rfl, rfl⟩
      exact List.mem_append_left _
        (List.mem_append_right _ (List.mem_singleton.mpr rfl))
    · refine ⟨{ id := st.next_audit_id + 1,
                user_id := some u.id,
                action := "MATRIX_ENTRY_GENERATED",
                entity_type := some "matrix_entry",
                entity_id := some st.next_entry_id,
                details := some [("requirement_id", .s r.requirement_id),
                                 ("document_id", .n document.id),
                                 ("compliance_status",
                                   .s (getStrD matrix_data "compliance_status"
                                     "Requires Clarification"))],
                timestamp := st.now }, ?_, rfl, rfl⟩
      exact List.mem_append_right _ (List.mem_singleton.mpr rfl)
    · show pairFilter ((st.matrix_entries.map _) ++ [_]) r.id document.id = _
      unfold pairFilter
      rw [List.filter_append,
        pairFilter_softdelete_nil st.matrix_entries r.id document.id ex.id
          st.now hall]
      simp [pairPred, newMatrixEntry, addAudit, softDeleteEntry]

/-- Witness for C3 at the fixture store holding the pre-existing entry. -/
theorem generate_force_true_regenerates_witness :
    (cfgAI.matrix_generation_provider = "gemini" →
      cfgAI.gemini_configured = true) ∧
    documentQuery stGen3 docLive.id 1 = [docLive] ∧
    requirementsQuery stGen3 [reqC2.id] 1 = [reqC2] ∧
    pairQuery stGen3 reqC2.id docLive.id = [exEntry] ∧
    stGen3.next_entry_id ≠ exEntry.id ∧
    (∃ st1 entry,
      analyze_document cfgAI stGen3 1 uEng1
          { document_id := docLive.id, requirement_ids := [reqC2.id],
            force_regenerate := true } outcomesOk =
        (st1, .ok { message := "Generated 1 matrix entries",
                    entry_ids := [stGen3.next_entry_id], skipped := 0 }) ∧
      (∀ e ∈ st1.matrix_entries, e.id = exEntry.id →
        e.deleted_at = some stGen3.now) ∧
      (∃ drow ∈ st1.audit_logs,
        drow.action = "MATRIX_ENTRY_DELETED" ∧
        drow.entity_type = some "matrix_entry" ∧
        drow.entity_id = some exEntry.id ∧
        drow.details.map (fun o => getStr o "reason") =
          some (some "force_regenerate")) ∧
      (∃ grow ∈ st1.audit_logs,
        grow.action = "MATRIX_ENTRY_GENERATED" ∧
        grow.entity_id = some stGen3.next_entry_id) ∧
      pairQuery st1 reqC2.id docLive.id = [entry] ∧
      entry.id = stGen3.next_entry_id ∧
      entry.deleted_at = none ∧
      entry.review_status = "pending") :=
  ⟨fun _ => rfl, rfl, rfl, rfl, by decide,
    generate_force_true_regenerates cfgAI stGen3 1 uEng1 docLive reqC2
      outcomesOk exEntry (fun _ => rfl) rfl rfl rfl rfl rfl (by decide)⟩


/-! ## C7 — batch generation: independence, counts, pauses -/

/-- Effect of one batched generation: a success appends exactly one matrix
entry, a failure leaves the store untouched (its own rollback only discards
its own pending insert). -/
theorem generate_single_matrix_entry_effect (cfg : AIConfig) (st : AppState)
    (user_id : Nat) (specs : Obj) (outcome : CallOutcome) (r : Requirement) :
    ((generate_single_matrix_entry cfg st user_id specs outcome r).2.success =
        true →
      (generate_single_matrix_entry cfg st user_id specs outcome
          r).1.matrix_entries.length = st.matrix_entries.length + 1) ∧
    ((generate_single_matrix_entry cfg st user_id specs outcome r).2.success =
        false →
      (generate_single_matrix_entry cfg st user_id specs outcome r).1 = st) := by
  unfold generate_single_matrix_entry
  cases h : scalarOneOrNone (requirementEntryFilter st.matrix_entries r.id) with
  | error e => simp [genFailure]
  | ok o =>
    cases o with
    | some ex => simp
    | none =>
      cases hg : generate_matrix_entry cfg r.description
          (categoryOrGeneral r.category) specs (some (projectContext r))
          outcome with
      | error e => simp [genFailure]
      | ok gd =>
        cases hm : (getObj gd "generation_metadata").bind
            (fun m => getStr m "model") with
        | none => simp [hm, genFailure]
        | some model_name => simp [hm]

/-- Per-batch bookkeeping: one result per requirement (no element aborts the
batch) and the store grows by exactly the number of successes (failures roll
back nothing that siblings committed). -/
theorem process_requirements_batch_spec (cfg : AIConfig) (user_id : Nat)
    (specs : Obj) (outcomes : Nat → CallOutcome) :
    ∀ (batch : List Requirement) (st : AppState),
      ((process_requirements_batch cfg user_id specs outcomes st
          batch).2.length = batch.length) ∧
      ((process_requirements_batch cfg user_id specs outcomes st
          batch).1.matrix_entries.length =
        st.matrix_entries.length +
          ((process_requirements_batch cfg user_id specs outcomes st
              batch).2.filter (·.success)).length) := by
  intro batch
  induction batch with
  | nil => intro st; simp [process_requirements_batch]
  | cons r rest ih =>
    intro st
    obtain ⟨ihlen, ihent⟩ :=
      ih (generate_single_matrix_entry cfg st user_id specs
        (outcomes r.id) r).1
    obtain ⟨heff1, heff0⟩ := generate_single_matrix_entry_effect cfg st
      user_id specs (outcomes r.id) r
    constructor
    · simp only [process_requirements_batch, List.length_cons]
      rw [ihlen]
    · simp only [process_requirements_batch]
      cases hs : (generate_single_matrix_entry cfg st user_id specs
          (outcomes r.id) r).2.success with
      | true =>
        rw [List.filter_cons_of_pos (by simpa using hs), List.length_cons,
          ihent, heff1 hs]
        omega
      | false =>
        rw [List.filter_cons_of_neg (by simpa using hs), ihent, heff0 hs]

/-- The single-batch case of the batching loop. -/
theorem processBatches_single_batch (cfg : AIConfig) (user_id : Nat)
    (specs : Obj) (outcomes : Nat → CallOutcome) (st : AppState)
    (rs : List Requirement) (b : Nat) (hne : ¬(b = 0 ∨ rs = []))
    (hle : rs.length ≤ b) :
    processBatches cfg user_id specs outcomes st rs b =
      ((process_requirements_batch cfg user_id specs outcomes st
          (rs.take b)).1,
       (process_requirements_batch cfg user_id specs outcomes st
          (rs.take b)).2, 0) := by
  rw [processBatches, dif_neg hne, dif_pos hle]

/-- Unrolling `processBatches`: one result per requirement, the store grows
by the number of successes, and exactly `(n-1)/batch_size` one-second pauses
separate the batches. -/
theorem processBatches_spec (cfg : AIConfig) (user_id : Nat) (specs : Obj)
    (outcomes : Nat → CallOutcome) (b : Nat) (hb : b ≠ 0) :
    ∀ (n : Nat) (rs : List Requirement), rs.length ≤ n → ∀ (st : AppState),
      ((processBatches cfg user_id specs outcomes st rs b).2.1.length =
        rs.length) ∧
      ((processBatches cfg user_id specs outcomes st
          rs b).1.matrix_entries.length =
        st.matrix_entries.length +
          ((processBatches cfg user_id specs outcomes st rs
              b).2.1.filter (·.success)).length) ∧
      ((processBatches cfg user_id specs outcomes st rs b).2.2 =
        (rs.length - 1) / b) := by
  intro n
  induction n with
  | zero =>
    intro rs hlen st
    have hnil : rs = [] := List.eq_nil_of_length_eq_zero (Nat.le_zero.mp hlen)
    subst hnil
    rw [processBatches]
    simp
  | succ n ih =>
    intro rs hlen st
    by_cases hnil : rs = []
    · subst hnil
      rw [processBatches]
      simp
    · obtain ⟨hblen, hbent⟩ := process_requirements_batch_spec cfg user_id
        specs outcomes (rs.take b) st
      have hlen1 : rs.length ≠ 0 := fun h => hnil (List.eq_nil_of_length_eq_zero h)
      by_cases hle : rs.length ≤ b
      · rw [processBatches_single_batch cfg user_id specs outcomes st rs b
          (by simp [hb, hnil]) hle]
        refine ⟨?_, hbent, ?_⟩
        · rw [hblen, List.length_take, Nat.min_eq_right hle]
        · have hb1 : 1 ≤ b := Nat.one_le_iff_ne_zero.mpr hb
          exact (Nat.div_eq_of_lt (by omega)).symm
      · rw [processBatches, dif_neg (by simp [hb, hnil]), dif_neg hle]
        have hb1 : 1 ≤ b := Nat.one_le_iff_ne_zero.mpr hb
        have hdrop : (rs.drop b).length ≤ n := by
          rw [List.length_drop]
          omega
        obtain ⟨ihA, ihB, ihC⟩ := ih (rs.drop b) hdrop
          (process_requirements_batch cfg user_id specs outcomes st
            (rs.take b)).1
        refine ⟨?_, ?_, ?_⟩
        · simp only [List.length_append, hblen, ihA, List.length_take,
            List.length_drop]
          omega
        · simp only [ihB, hbent, List.filter_append, List.length_append]
          omega
        · simp only [ihC, List.length_drop]
          have h2 : rs.length - 1 = (rs.length - b - 1) + b := by omega
          rw [h2, Nat.add_div_right _ (Nat.pos_of_ne_zero hb)]

/-- A list splits into its `p`-part and its `¬p`-part. -/
theorem length_filter_add_length_filter_not (p : α → Bool) (l : List α) :
    (l.filter p).length + (l.filter (fun a => !p a)).length = l.length := by
  induction l with
  | nil => rfl
  | cons a l ih =>
    cases h : p a <;> simp [List.filter_cons, h] <;> omega

/-- C7 amended: over a project with requirements and extracted documents,
batch generation reports one outcome per requirement (no failure aborts the
run), its generated and failed counts partition the total, exactly
`generated_count` new entries are committed (failures do not roll back
siblings), and `(total-1)/batch_size` one-second pauses separate successive
batches.  There is no separate skipped count: an already-existing entry is
reported as a failure. -/
theorem batch_generation_counts (cfg : AIConfig) (st : AppState)
    (project_id user_id batch_size : Nat) (outcomes : Nat → CallOutcome)
    (hreqs : (projectRequirementsQuery st project_id).isEmpty = false)
    (hdocs : (completedDocumentsQuery st project_id).isEmpty = false)
    (hb : batch_size ≠ 0) :
    ((generate_matrix_for_project cfg st project_id user_id batch_size
        outcomes).2.1.success = true) ∧
    ((generate_matrix_for_project cfg st project_id user_id batch_size
        outcomes).2.1.total_requirements =
      (projectRequirementsQuery st project_id).length) ∧
    ((generate_matrix_for_project cfg st project_id user_id batch_size
        outcomes).2.1.results.length =
      (projectRequirementsQuery st project_id).length) ∧
    ((generate_matrix_for_project cfg st project_id user_id batch_size
        outcomes).2.1.generated_count +
      (generate_matrix_for_project cfg st project_id user_id batch_size
        outcomes).2.1.failed_count =
      (projectRequirementsQuery st project_id).length) ∧
    ((generate_matrix_for_project cfg st project_id user_id batch_size
        outcomes).1.matrix_entries.length =
      st.matrix_entries.length +
        (generate_matrix_for_project cfg st project_id user_id batch_size
          outcomes).2.1.generated_count) ∧
    ((generate_matrix_for_project cfg st project_id user_id batch_size
        outcomes).2.2 =
      ((projectRequirementsQuery st project_id).length - 1) / batch_size) := by
  have hb' : (batch_size == 0) = false := by simpa using hb
  obtain ⟨hA, hB, hC⟩ := processBatches_spec cfg user_id
    (combine_document_specifications (completedDocumentsQuery st project_id))
    outcomes batch_size hb (projectRequirementsQuery st project_id).length
    (projectRequirementsQuery st project_id) le_rfl st
  simp only [generate_matrix_for_project, hreqs, hdocs, hb',
    Bool.false_eq_true, if_false]
  exact ⟨trivial, trivial, hA,
    (length_filter_add_length_filter_not _ _).trans hA, hB, hC⟩

/-- Witness for C7's amended theorem at the two-requirement fixture store. -/
theorem batch_generation_counts_witness :
    (projectRequirementsQuery stBatch 1).isEmpty = false ∧
    (completedDocumentsQuery stBatch 1).isEmpty = false ∧
    (5 : Nat) ≠ 0 ∧
    (((generate_matrix_for_project cfgAI stBatch 1 9 5
        outcomesOk).2.1.success = true) ∧
     ((generate_matrix_for_project cfgAI stBatch 1 9 5
        outcomesOk).2.1.total_requirements =
       (projectRequirementsQuery stBatch 1).length) ∧
     ((generate_matrix_for_project cfgAI stBatch 1 9 5
        outcomesOk).2.1.results.length =
       (projectRequirementsQuery stBatch 1).length) ∧
     ((generate_matrix_for_project cfgAI stBatch 1 9 5
        outcomesOk).2.1.generated_count +
       (generate_matrix_for_project cfgAI stBatch 1 9 5
        outcomesOk).2.1.failed_count =
       (projectRequirementsQuery stBatch 1).length) ∧
     ((generate_matrix_for_project cfgAI stBatch 1 9 5
        outcomesOk).1.matrix_entries.length =
       stBatch.matrix_entries.length +
         (generate_matrix_for_project cfgAI stBatch 1 9 5
          outcomesOk).2.1.generated_count) ∧
     ((generate_matrix_for_project cfgAI stBatch 1 9 5 outcomesOk).2.2 =
       ((projectRequirementsQuery stBatch 1).length - 1) / 5)) :=
  ⟨rfl, rfl, by decide,
    batch_generation_counts cfgAI stBatch 1 9 5 outcomesOk rfl rfl
      (by decide)⟩

/-- C7 counterexample: running the batch generator over requirement 1
(fresh) and requirement 2 (entry already exists) with a healthy provider
reports `generated_count = 1` and `failed_count = 1`: the skip of
requirement 2 is counted as a failure with error "Matrix entry already
exists", and the summary carries no skipped count at all — the claim's
total/generated/skipped/failed reporting (skipped distinct from failed)
is false on this input. -/
theorem batch_summary_counts_skip_as_failure :
    (generate_matrix_for_project cfgAI stBatch 1 9 5
        outcomesOk).2.1.generated_count = 1 ∧
    (generate_matrix_for_project cfgAI stBatch 1 9 5
        outcomesOk).2.1.failed_count = 1 ∧
    ((generate_matrix_for_project cfgAI stBatch 1 9 5
        outcomesOk).2.1.results.map
      (fun g => (g.requirement_id, g.success, g.error))) =
      [(1, true, none), (2, false, some "Matrix entry already exists")] := by
  simp only [generate_matrix_for_project]
  rw [processBatches_single_batch cfgAI 9
    (combine_document_specifications (completedDocumentsQuery stBatch 1))
    outcomesOk stBatch (projectRequirementsQuery stBatch 1) 5
    (by decide) (by decide)]
  decide

end PharmaSpec
